import Mathlib

/-!
Shallow embedding of the QtQuickVcp HAL-remote session layer:
the two socket supervisors (MachinetalkRpcClient, MachinetalkSubscriber)
and the composite component (QHalRemoteComponent), translated from
src/src/common/machinetalkrpcclient.cpp, src/src/common/machinetalksubscriber.cpp
and the QHalRemoteComponent implementation.

Mutable Qt objects become records; a slot or method becomes a function
State -> args -> State x List Signal, where the signal list records the
Qt signal emissions (and socket writes) in program order.
-/

namespace QtQuickVcp

/-- Socket-level link state shared by both supervisors
(enum SocketState: Down, Trying, Up, Timeout, Error in machinetalksubscriber.h,
SocketDown .. SocketError for the rpc client). -/
inductive SocketState
  | Down
  | Trying
  | Up
  | Timeout
  | Error
  deriving DecidableEq, Repr, Fintype

/-- The protobuf container type discriminators used by the session layer
(pb ContainerType values referenced in the sources). -/
inductive ContainerType
  | MT_PING
  | MT_PING_ACKNOWLEDGE
  | MT_HALRCOMP_BIND
  | MT_HALRCOMP_BIND_CONFIRM
  | MT_HALRCOMP_BIND_REJECT
  | MT_HALRCOMP_SET
  | MT_HALRCOMP_SET_REJECT
  | MT_HALRCOMP_FULL_UPDATE
  | MT_HALRCOMP_INCREMENTAL_UPDATE
  | MT_HALRCOMMAND_ERROR
  deriving DecidableEq, Repr

/-- HAL pin value type (QHalPin: Bit, Float, S32, U32; spec section 3). -/
inductive HalPinType
  | Bit
  | Float
  | S32
  | U32
  deriving DecidableEq, Repr

/-- Modelled from the spec: pin direction, one of In, Out, IO (QHalPin is not
under src/; spec section 3 gives Direction as one of these three values).
The source constructor named IO is called IOPin here. -/
inductive HalPinDirection
  | In
  | Out
  | IOPin
  deriving DecidableEq, Repr

/-- A QVariant as the component uses it: it only ever stores one of the four
HAL value shapes. Doubles are modelled as rationals: no floating-point
arithmetic happens anywhere in the embedded code, values are only moved. -/
inductive Variant
  | vDouble (x : Rat)
  | vBool (b : Bool)
  | vInt (i : Int)
  | vUInt (u : Nat)
  deriving DecidableEq, Repr

/-- QVariant::toDouble for the value shapes the component stores. -/
def Variant.toDouble : Variant → Rat
  | .vDouble x => x
  | .vBool b => if b then 1 else 0
  | .vInt i => (i : Rat)
  | .vUInt u => (u : Rat)

/-- QVariant::toBool for the value shapes the component stores. -/
def Variant.toBool : Variant → Bool
  | .vDouble x => x ≠ 0
  | .vBool b => b
  | .vInt i => i ≠ 0
  | .vUInt u => u ≠ 0

/-- QVariant::toInt for the value shapes the component stores
(doubles truncate toward zero, which for a rational is num / den). -/
def Variant.toInt : Variant → Int
  | .vDouble x => x.num / (x.den : Int)
  | .vBool b => if b then 1 else 0
  | .vInt i => i
  | .vUInt u => (u : Int)

/-- QVariant::toUInt for the value shapes the component stores. -/
def Variant.toUInt : Variant → Nat
  | .vDouble x => (x.num / (x.den : Int)).toNat
  | .vBool b => if b then 1 else 0
  | .vInt i => i.toNat
  | .vUInt u => u

/-- A type-tagged HAL value as carried on the wire
(exactly one of halfloat, halbit, hals32, halu32 is present). -/
inductive HalValue
  | halfloat (x : Rat)
  | halbit (b : Bool)
  | hals32 (i : Int)
  | halu32 (u : Nat)
  deriving DecidableEq, Repr

/-- A pb Pin record as read by the component: name, handle and an optional
type-tagged value (the source reads has_halfloat / has_halbit / ... in
priority order; well-formed messages set at most one, which the Option
models). -/
structure WirePin where
  name : String
  handle : Nat
  ptype : HalPinType
  value : Option HalValue
  deriving DecidableEq, Repr

/-- A pb Component record: name and pin list. -/
structure WireComponent where
  name : String
  pins : List WirePin
  deriving DecidableEq, Repr

/-- The pb Container envelope, restricted to the fields the session layer
reads: type discriminator, repeated pin, repeated comp, repeated note,
and the optional protocol parameters keepalive timer (ms). -/
structure Container where
  ctype : ContainerType
  pins : List WirePin := []
  comps : List WireComponent := []
  notes : List String := []
  pparamsKeepalive : Option Nat := none
  deriving DecidableEq, Repr

/-! ## MachinetalkRpcClient (src/src/common/machinetalkrpcclient.cpp) -/

/-- Observable effects of the rpc client: Qt signal emissions and writes to
the 0MQ socket, in program order. -/
inductive RpcSignal
  | socketStateChanged (s : SocketState)
  | errorStringChanged (s : String)
  | messageReceived (rx : Container)
  | wireSent (t : ContainerType)
  deriving DecidableEq, Repr

/-- State of a MachinetalkRpcClient. socket models m_socket != NULL
(the 0MQ socket exists and is connected); timerActive models
m_heartbeatTimer->isActive(). -/
structure MachinetalkRpcClient where
  ready : Bool := false
  socket : Bool := false
  socketState : SocketState := .Down
  errorString : String := ""
  heartbeatPeriod : Nat := 3000
  timerActive : Bool := false
  pingErrorCount : Nat := 0
  pingErrorThreshold : Nat := 2
  deriving DecidableEq, Repr

namespace MachinetalkRpcClient

/-- MachinetalkRpcClient::updateState(state, errorString): assign and emit
only on a state change; the error text is updated (and its change signalled
with an empty-string payload) only inside that state change. -/
def updateState (st : MachinetalkRpcClient) (state : SocketState)
    (errorString : String) : MachinetalkRpcClient × List RpcSignal :=
  if state ≠ st.socketState then
    let st1 := { st with socketState := state }
    if errorString ≠ st1.errorString then
      ({ st1 with errorString := errorString },
        [.socketStateChanged state, .errorStringChanged ""])
    else
      (st1, [.socketStateChanged state])
  else
    (st, [])

/-- MachinetalkRpcClient::refreshHeartbeat: restart the timer when the
period is positive, otherwise leave it stopped. -/
def refreshHeartbeat (st : MachinetalkRpcClient) : MachinetalkRpcClient :=
  { st with timerActive := st.heartbeatPeriod > 0 }

/-- MachinetalkRpcClient::stopHeartbeat. -/
def stopHeartbeat (st : MachinetalkRpcClient) : MachinetalkRpcClient :=
  { st with timerActive := false }

/-- MachinetalkRpcClient::sendMessage(type, tx): when m_socket is NULL the
call returns silently (source comment: disallow sending messages when not
connected); otherwise the serialized container is written to the socket and
a PING send refreshes the heartbeat. The zmq send exception path is not
taken in this model (it depends on the transport, not on this code). -/
def sendMessage (st : MachinetalkRpcClient) (t : ContainerType) :
    MachinetalkRpcClient × List RpcSignal :=
  if st.socket = false then
    (st, [])
  else
    let st1 := if t = .MT_PING then refreshHeartbeat st else st
    (st1, [.wireSent t])

/-- MachinetalkRpcClient::heartbeatTimerTick: send a PING, increment the
outstanding-ping counter, and transition Up to Timeout when the counter
exceeds the threshold. -/
def heartbeatTimerTick (st : MachinetalkRpcClient) :
    MachinetalkRpcClient × List RpcSignal :=
  let p := sendMessage st .MT_PING
  let st1 := { p.1 with pingErrorCount := p.1.pingErrorCount + 1 }
  if st1.pingErrorCount > st1.pingErrorThreshold ∧ st1.socketState = .Up then
    let q := updateState st1 .Timeout ""
    (q.1, p.2 ++ q.2)
  else
    (st1, p.2)

/-- MachinetalkRpcClient::socketMessageReceived: any inbound message zeroes
the ping error counter and latches the link state to Up; everything except
a PING_ACKNOWLEDGE is forwarded upstream. -/
def socketMessageReceived (st : MachinetalkRpcClient) (rx : Container) :
    MachinetalkRpcClient × List RpcSignal :=
  let st1 := { st with pingErrorCount := 0 }
  let q := updateState st1 .Up ""
  if rx.ctype ≠ .MT_PING_ACKNOWLEDGE then
    (q.1, q.2 ++ [.messageReceived rx])
  else
    (q.1, q.2)

end MachinetalkRpcClient

/-! ## MachinetalkSubscriber (src/src/common/machinetalksubscriber.cpp) -/

/-- Observable effects of the subscriber: Qt signal emissions and socket
subscription calls. wireSubscribed ts records that the socket primitive
subscribeTo was invoked once per topic of ts; wireUnsubscribed would record
the unsubscribe primitive (which the source never calls). -/
inductive SubSignal
  | socketStateChanged (s : SocketState)
  | errorStringChanged (s : String)
  | messageReceived (topic : String) (rx : Container)
  | wireSubscribed (ts : Finset String)
  | wireUnsubscribed (ts : Finset String)
  deriving DecidableEq

/-- State of a MachinetalkSubscriber. topics is m_topics (the configured
topics), subscriptions is m_subscriptions (the explicitly tracked subscribed
topics); socket models an open, hooked-up 0MQ SUB socket. -/
structure MachinetalkSubscriber where
  ready : Bool := false
  socket : Bool := false
  socketState : SocketState := .Down
  errorString : String := ""
  topics : Finset String := ∅
  subscriptions : Finset String := ∅
  heartbeatPeriod : Nat := 3000
  timerActive : Bool := false
  deriving DecidableEq

namespace MachinetalkSubscriber

/-- MachinetalkSubscriber::updateState(state, errorString), identical in
structure to the rpc client flavor. -/
def updateState (st : MachinetalkSubscriber) (state : SocketState)
    (errorString : String) : MachinetalkSubscriber × List SubSignal :=
  if state ≠ st.socketState then
    let st1 := { st with socketState := state }
    if errorString ≠ st1.errorString then
      ({ st1 with errorString := errorString },
        [.socketStateChanged state, .errorStringChanged ""])
    else
      (st1, [.socketStateChanged state])
  else
    (st, [])

/-- MachinetalkSubscriber::refreshHeartbeat. -/
def refreshHeartbeat (st : MachinetalkSubscriber) : MachinetalkSubscriber :=
  { st with timerActive := st.heartbeatPeriod > 0 }

/-- MachinetalkSubscriber::stopHeartbeat. -/
def stopHeartbeat (st : MachinetalkSubscriber) : MachinetalkSubscriber :=
  { st with timerActive := false }

/-- The socket calls a foreach loop over a QSet performs: no call for the
empty set, otherwise one call per member, recorded as a single batch. -/
def wireBatch (mk : Finset String → SubSignal) (ts : Finset String) :
    List SubSignal :=
  if ts = ∅ then [] else [mk ts]

/-- MachinetalkSubscriber::subscribe: enter Trying, reset the heartbeat
period to 0, then for every configured topic call the socket subscribe
primitive and insert the topic into the tracked subscription set. -/
def subscribe (st : MachinetalkSubscriber) :
    MachinetalkSubscriber × List SubSignal :=
  let q := updateState st .Trying ""
  let st1 := { q.1 with
    heartbeatPeriod := 0,
    subscriptions := q.1.subscriptions ∪ q.1.topics }
  (st1, q.2 ++ wireBatch .wireSubscribed q.1.topics)

/-- MachinetalkSubscriber::unsubscribe: enter Down and clear the tracked
subscription set. The source body calls the socket subscribeTo primitive
(not the unsubscribe primitive) on every previously subscribed topic; the
embedding reproduces that call faithfully. -/
def unsubscribe (st : MachinetalkSubscriber) :
    MachinetalkSubscriber × List SubSignal :=
  let q := updateState st .Down ""
  let st1 := { q.1 with subscriptions := ∅ }
  (st1, q.2 ++ wireBatch .wireSubscribed q.1.subscriptions)

/-- MachinetalkSubscriber::stop: stop the heartbeat and disconnect the
sockets (disconnectSockets transitions to Down and closes the socket;
it does not touch m_subscriptions). -/
def stop (st : MachinetalkSubscriber) :
    MachinetalkSubscriber × List SubSignal :=
  let st1 := stopHeartbeat st
  let q := updateState st1 .Down ""
  ({ q.1 with socket := false }, q.2)

/-- MachinetalkSubscriber::start: connect the sockets and, when the connect
succeeds, subscribe; a connect failure transitions to Error with the
exception text (connectOk and err stand for the transport outcome). -/
def start (st : MachinetalkSubscriber) (connectOk : Bool) (err : String) :
    MachinetalkSubscriber × List SubSignal :=
  if connectOk then
    subscribe { st with socket := true }
  else
    updateState st .Error err

/-- MachinetalkSubscriber::heartbeatTimerTick: transition to Timeout and
halt the timer. -/
def heartbeatTimerTick (st : MachinetalkSubscriber) :
    MachinetalkSubscriber × List SubSignal :=
  let q := updateState st .Timeout ""
  ({ q.1 with timerActive := false }, q.2)

/-- MachinetalkSubscriber::socketMessageReceived for a well-formed
(two-frame) message: a full update latches Up and adopts twice the server
keepalive period; then, if the link is Up, the heartbeat is refreshed and
non-PING messages are forwarded, otherwise a timeout-recovery cycle runs
unsubscribe followed by subscribe (messages of fewer than two frames are
dropped before this point and have no effect). -/
def socketMessageReceived (st : MachinetalkSubscriber) (topic : String)
    (rx : Container) : MachinetalkSubscriber × List SubSignal :=
  let p :=
    if rx.ctype = .MT_HALRCOMP_FULL_UPDATE then
      let q := updateState st .Up ""
      match rx.pparamsKeepalive with
      | some k => ({ q.1 with heartbeatPeriod := k * 2 }, q.2)
      | none => q
    else
      (st, ([] : List SubSignal))
  if p.1.socketState = .Up then
    let st1 := refreshHeartbeat p.1
    if rx.ctype ≠ .MT_PING then
      (st1, p.2 ++ [.messageReceived topic rx])
    else
      (st1, p.2)
  else
    let u := unsubscribe p.1
    let s := subscribe u.1
    (s.1, p.2 ++ u.2 ++ s.2)

/-- An external stimulus driving one subscriber instance. -/
inductive Event
  | setReadyTrue (connectOk : Bool) (err : String)
  | setReadyFalse
  | timerTick
  | message (topic : String) (rx : Container)
  deriving DecidableEq, Repr

/-- One stimulus step. setReady follows the guard of the setReady slot
(shared with MachinetalkRpcClient::setReady in part_001: a no-op unless the
ready flag flips, then start or stop); a timer tick fires only while the
timer is active; a message arrives only through a connected socket. -/
def step (st : MachinetalkSubscriber) (e : Event) :
    MachinetalkSubscriber × List SubSignal :=
  match e with
  | .setReadyTrue ok err =>
      if st.ready then (st, []) else start { st with ready := true } ok err
  | .setReadyFalse =>
      if st.ready then stop { st with ready := false } else (st, [])
  | .timerTick =>
      if st.timerActive then heartbeatTimerTick st else (st, [])
  | .message topic rx =>
      if st.socket then socketMessageReceived st topic rx else (st, [])

/-- A fresh subscriber configured (via addTopic) with the given topics. -/
def mkSubscriber (topics : Finset String) : MachinetalkSubscriber :=
  { topics := topics }

/-- Run a list of stimuli from a state, discarding the emissions. -/
def run (st : MachinetalkSubscriber) (es : List Event) :
    MachinetalkSubscriber :=
  es.foldl (fun s e => (step s e).1) st

end MachinetalkSubscriber

/-! ## QHalRemoteComponent (qhalremotecomponent.h / .cpp) -/

/-- enum QHalRemoteComponent::State. -/
inductive CState
  | Disconnected
  | Connecting
  | Connected
  | Timeout
  | Error
  deriving DecidableEq, Repr

/-- enum QHalRemoteComponent::ConnectionError. -/
inductive CError
  | NoError
  | BindError
  | PinChangeError
  | CommandError
  | SocketError
  deriving DecidableEq, Repr

/-- A QHalPin as the component reads and writes it. Getter and setter
semantics (plain stored properties; setValue(v, synced) stores the value and
the synced flag) are modelled from the spec, section 3 and section 4.2,
since qhalpin.h is not among the sources. -/
structure QHalPin where
  name : String
  ptype : HalPinType
  direction : HalPinDirection
  value : Variant
  handle : Nat := 0
  synced : Bool := false
  enabled : Bool := true
  deriving DecidableEq, Repr

/-- The payload of an outbound HALRCOMP_SET Pin record: handle, type and the
type-tagged value (the name field MAY be carried and is not set here,
matching the source). -/
structure SetPin where
  handle : Nat
  ptype : HalPinType
  value : HalValue
  deriving DecidableEq, Repr

/-- The wire encoder dispatch used by pinChange and bind: tag the converted
QVariant by the pin type. -/
def taggedValue (t : HalPinType) (v : Variant) : HalValue :=
  match t with
  | .Float => .halfloat v.toDouble
  | .Bit => .halbit v.toBool
  | .S32 => .hals32 v.toInt
  | .U32 => .halu32 v.toUInt

/-- Observable effects of the component. connectionStateChanged carries,
besides the new state, the pin registry as an external observer handling the
signal synchronously would read it at the moment of emission. -/
inductive HSignal
  | connectionStateChanged (s : CState) (pinsAtEmit : List (String × QHalPin))
  | connectedChanged (b : Bool)
  | errorStringChanged (s : String)
  | errorChanged (e : CError)
  | rpcSent (t : ContainerType)
  deriving DecidableEq, Repr

/-- State of a QHalRemoteComponent. pinsByName is the QMap m_pinsByName as a
name-keyed association list; pinsByHandle maps a remote handle to the name of
the pin object it aliases (both maps reference the same QHalPin objects in
the source, so the by-name list is the single store here). subReady and
rpcReady mirror the ready flags the component drives on its two supervisors
through setReady. -/
structure QHalRemoteComponent where
  name : String := "default"
  connected : Bool := false
  connectionState : CState := .Disconnected
  error : CError := .NoError
  errorString : String := ""
  create : Bool := true
  pinsByName : List (String × QHalPin) := []
  pinsByHandle : List (Nat × String) := []
  subSocketState : SocketState := .Down
  rpcSocketState : SocketState := .Down
  subReady : Bool := false
  rpcReady : Bool := false
  deriving DecidableEq, Repr

namespace QHalRemoteComponent

/-- QHalRemoteComponent::unsyncPins: set synced of all pins to false. -/
def unsyncPins (st : QHalRemoteComponent) : QHalRemoteComponent :=
  { st with pinsByName :=
      st.pinsByName.map (fun np => (np.1, { np.2 with synced := false })) }

/-- QHalRemoteComponent::removePins: drop both indices (the observer
disconnects have no observable counterpart here). -/
def removePins (st : QHalRemoteComponent) : QHalRemoteComponent :=
  { st with pinsByName := [], pinsByHandle := [] }

/-- QHalRemoteComponent::socketStateChanged reads both supervisor states and
merges them; this is the merge priority written in its if chain. -/
def compositeState (s r : SocketState) : CState :=
  if s = .Up ∧ r = .Up then .Connected
  else if s = .Timeout ∨ r = .Timeout then .Timeout
  else if s = .Trying ∨ r = .Trying then .Connecting
  else .Disconnected

/-- The state-change block at the head of updateState(state, error,
errorString): on a state change, unsync all pins when leaving Connected,
store and emit the new state (the emitted signal carries the registry as the
observer sees it at that instant) and maintain the connected flag. The error
handling that follows in the source is updateError, defined below. -/
def statePhase (st : QHalRemoteComponent) (state : CState) :
    QHalRemoteComponent × List HSignal :=
  if state ≠ st.connectionState then
    let st1 := if st.connectionState = .Connected then unsyncPins st else st
    let st2 := { st1 with connectionState := state }
    let evs := [HSignal.connectionStateChanged state st2.pinsByName]
    if state = .Connected then
      if st2.connected ≠ true then
        ({ st2 with connected := true }, evs ++ [.connectedChanged true])
      else (st2, evs)
    else
      if st2.connected ≠ false then
        ({ st2 with connected := false }, evs ++ [.connectedChanged false])
      else (st2, evs)
  else
    (st, [])

/-- updateError(NoError, empty) as reached through the single-argument
updateState(state) overload: update the error text (the empty string, with
the new text as the emitted payload) and reset the error kind. The cleanup
branch of updateError is unreachable here because the error is NoError, so
this copy lets the synchronous supervisor-teardown cascade below call back
into the state machine without recursion; updateStateSimple_eq proves it
equal to the full updateError at (NoError, empty). -/
def applyErrorNoError (st : QHalRemoteComponent) :
    QHalRemoteComponent × List HSignal :=
  let p :=
    if st.errorString ≠ "" then
      ({ st with errorString := "" }, [HSignal.errorStringChanged ""])
    else
      (st, [])
  if p.1.error ≠ .NoError then
    ({ p.1 with error := .NoError }, p.2 ++ [.errorChanged .NoError])
  else
    p

/-- The single-argument updateState(state) overload: the state-change block
followed by updateError(NoError, empty). -/
def updateStateSimple (st : QHalRemoteComponent) (state : CState) :
    QHalRemoteComponent × List HSignal :=
  let p := statePhase st state
  let q := applyErrorNoError p.1
  (q.1, p.2 ++ q.2)

/-- QHalRemoteComponent::socketStateChanged: recompute the composite
connection state from the two supervisor link states through the
single-argument updateState overload. -/
def socketStateChanged (st : QHalRemoteComponent) :
    QHalRemoteComponent × List HSignal :=
  updateStateSimple st (compositeState st.subSocketState st.rpcSocketState)

/-- m_subscriber->setReady(false) with its synchronous fallout: a no-op when
the subscriber is already not ready (the setReady guard); otherwise the
subscriber stops, and when its link was not already Down, its
socketStateChanged(Down) emission synchronously re-enters the component's
socketStateChanged slot (the only component slot wired to it). -/
def subSetReadyFalse (st : QHalRemoteComponent) :
    QHalRemoteComponent × List HSignal :=
  if st.subReady = false then
    (st, [])
  else
    let st1 := { st with subReady := false }
    if st1.subSocketState ≠ .Down then
      socketStateChanged { st1 with subSocketState := .Down }
    else
      (st1, [])

/-- m_rpcClient->setReady(false) with its synchronous fallout: when the rpc
link leaves a non-Down state, its socketStateChanged(Down) emission
re-enters, in connection order, the component's socketStateChanged slot and
then halrcmdStateChanged, whose non-Up branch calls
m_subscriber->setReady(false). -/
def rpcSetReadyFalse (st : QHalRemoteComponent) :
    QHalRemoteComponent × List HSignal :=
  if st.rpcReady = false then
    (st, [])
  else
    let st1 := { st with rpcReady := false }
    if st1.rpcSocketState ≠ .Down then
      let q := socketStateChanged { st1 with rpcSocketState := .Down }
      let r := subSetReadyFalse q.1
      (r.1, q.2 ++ r.2)
    else
      (st1, [])

/-- QHalRemoteComponent::cleanup: set the subscriber not ready, then the rpc
client not ready (each call cascading synchronously as above), then remove
all pins. -/
def cleanup (st : QHalRemoteComponent) :
    QHalRemoteComponent × List HSignal :=
  let a := subSetReadyFalse st
  let b := rpcSetReadyFalse a.1
  (removePins b.1, a.2 ++ b.2)

/-- QHalRemoteComponent::updateError: update the error text (emitting the
new text), then on an error-kind change run cleanup - with its synchronous
re-entrant cascade - for any error other than NoError, before storing and
emitting the new error kind. -/
def updateError (st : QHalRemoteComponent) (error : CError)
    (errorString : String) : QHalRemoteComponent × List HSignal :=
  let p :=
    if st.errorString ≠ errorString then
      ({ st with errorString := errorString },
        [HSignal.errorStringChanged errorString])
    else
      (st, [])
  if p.1.error ≠ error then
    let q := if error ≠ .NoError then cleanup p.1 else (p.1, [])
    ({ q.1 with error := error }, p.2 ++ q.2 ++ [.errorChanged error])
  else
    p

/-- QHalRemoteComponent::updateState(state, error, errorString): the
state-change block followed by updateError. -/
def updateState (st : QHalRemoteComponent) (state : CState) (error : CError)
    (errorString : String) : QHalRemoteComponent × List HSignal :=
  let p := statePhase st state
  let q := updateError p.1 error errorString
  (q.1, p.2 ++ q.2)

/-- The note concatenation loop shared by the reject and command-error
handlers: append every note followed by a newline. -/
def notesToErrorString (notes : List String) : String :=
  notes.foldl (fun acc n => acc ++ n ++ "\n") ""

/-- QHalRemoteComponent::halrcmdMessageReceived: BIND_CONFIRM readies the
subscriber; BIND_REJECT sets the rpc client not ready (with its synchronous
cascade) and enters Error/BindError; SET_REJECT enters Error/PinChangeError;
both rejects carry the concatenated notes as error text. Other types are
ignored. The setReady(true) call of BIND_CONFIRM starts the subscriber,
whose further transitions depend on the transport and arrive as later
socketStateChanged events outside this handler. -/
def halrcmdMessageReceived (st : QHalRemoteComponent) (rx : Container) :
    QHalRemoteComponent × List HSignal :=
  if rx.ctype = .MT_HALRCOMP_BIND_CONFIRM then
    ({ st with subReady := true }, [])
  else if rx.ctype = .MT_HALRCOMP_BIND_REJECT
      ∨ rx.ctype = .MT_HALRCOMP_SET_REJECT then
    let errorString := notesToErrorString rx.notes
    if rx.ctype = .MT_HALRCOMP_BIND_REJECT then
      let r0 := rpcSetReadyFalse st
      let r1 := updateState r0.1 .Error .BindError errorString
      (r1.1, r0.2 ++ r1.2)
    else
      updateState st .Error .PinChangeError errorString
  else
    (st, [])

/-- QHalRemoteComponent::pinChange: a local pin change is dropped unless the
component is Connected; In pins are dropped; otherwise a HALRCOMP_SET
envelope with one Pin record (handle, type, type-tagged value) is handed to
the rpc client for sending. The returned option is the emitted record. -/
def pinChange (st : QHalRemoteComponent) (pin : QHalPin) : Option SetPin :=
  if st.connectionState ≠ .Connected then
    none
  else if pin.direction = .In then
    none
  else
    some ⟨pin.handle, pin.ptype, taggedValue pin.ptype pin.value⟩

/-- QHalRemoteComponent::pinUpdate: write the remote value into the local
pin with the synced flag raised (QHalPin::setValue(value, true)); the value
branch is chosen by the has_halfloat / has_halbit / has_hals32 / has_halu32
tests in source order. -/
def pinUpdate (remotePin : WirePin) (localPin : QHalPin) : QHalPin :=
  match remotePin.value with
  | some (.halfloat x) => { localPin with value := .vDouble x, synced := true }
  | some (.halbit b) => { localPin with value := .vBool b, synced := true }
  | some (.hals32 i) => { localPin with value := .vInt i, synced := true }
  | some (.halu32 u) => { localPin with value := .vUInt u, synced := true }
  | none => localPin

/-- The characters after the first dot, when a dot exists. -/
def afterFirstDot : List Char → Option (List Char)
  | [] => none
  | c :: cs => if c = '.' then some cs else afterFirstDot cs

/-- QString::mid(indexOf(".") + 1) when a dot exists: strip everything up to
and including the first dot of the wire pin name; a dotless name is kept. -/
def stripCompName (name : String) : String :=
  match afterFirstDot name.toList with
  | some rest => String.mk rest
  | none => name

/-- QMap::value lookup by key. -/
def lookupByName (pins : List (String × QHalPin)) (name : String) :
    Option QHalPin :=
  (pins.find? (fun np => np.1 = name)).map (fun np => np.2)

/-- QMap assignment by key: replace an existing entry, else append. -/
def storeByName (pins : List (String × QHalPin)) (name : String)
    (pin : QHalPin) : List (String × QHalPin) :=
  if (pins.find? (fun np => np.1 = name)).isSome then
    pins.map (fun np => if np.1 = name then (name, pin) else np)
  else
    pins ++ [(name, pin)]

/-- QHash::value(key, NULL) on the handle index, resolved through the
by-name store. -/
def lookupByHandle (st : QHalRemoteComponent) (handle : Nat) :
    Option QHalPin :=
  match (st.pinsByHandle.find? (fun hn => hn.1 = handle)).map
      (fun hn => hn.2) with
  | some n => lookupByName st.pinsByName n
  | none => none

/-- QHash::insert on the handle index. -/
def storeHandle (st : QHalRemoteComponent) (handle : Nat) (name : String) :
    QHalRemoteComponent :=
  if (st.pinsByHandle.find? (fun hn => hn.1 = handle)).isSome then
    { st with pinsByHandle :=
        st.pinsByHandle.map (fun hn => if hn.1 = handle then (handle, name) else hn) }
  else
    { st with pinsByHandle := st.pinsByHandle ++ [(handle, name)] }

/-- One pin of a HALRCOMP_FULL_UPDATE component record: strip the component
name from the wire name, then fetch the local pin from m_pinsByName and
immediately call setHandle on it. When the name is unknown the fetched
pointer is NULL and the setHandle call dereferences it; the embedding
surfaces that as an error value. -/
def fullUpdatePin (st : QHalRemoteComponent) (remotePin : WirePin) :
    Except String QHalRemoteComponent :=
  let name := stripCompName remotePin.name
  match lookupByName st.pinsByName name with
  | none => .error "null QHalPin dereference"
  | some localPin =>
      let pin1 := pinUpdate remotePin { localPin with handle := remotePin.handle }
      let st1 := { st with pinsByName := storeByName st.pinsByName name pin1 }
      .ok (storeHandle st1 remotePin.handle name)

/-- The full-update loops: every pin of every component record in order. -/
def fullUpdate (st : QHalRemoteComponent) (comps : List WireComponent) :
    Except String QHalRemoteComponent :=
  comps.foldlM (fun s c => c.pins.foldlM fullUpdatePin s) st

/-- The incremental-update loop: pins are addressed by handle and unknown
handles are skipped (the source null-checks this lookup). -/
def incrementalUpdate (st : QHalRemoteComponent) (pins : List WirePin) :
    QHalRemoteComponent :=
  pins.foldl
    (fun s remotePin =>
      match lookupByHandle s remotePin.handle with
      | none => s
      | some localPin =>
          match (s.pinsByHandle.find? (fun hn => hn.1 = remotePin.handle)).map
              (fun hn => hn.2) with
          | some n =>
              { s with pinsByName :=
                  storeByName s.pinsByName n (pinUpdate remotePin localPin) }
          | none => s)
    st

/-- QHalRemoteComponent::halrcompMessageReceived: dispatch on the message
type; the full-update branch can dereference NULL (surfaced as an error),
every other branch is total. -/
def halrcompMessageReceived (st : QHalRemoteComponent) (rx : Container) :
    Except String (QHalRemoteComponent × List HSignal) :=
  if rx.ctype = .MT_HALRCOMP_INCREMENTAL_UPDATE then
    .ok (incrementalUpdate st rx.pins, [])
  else if rx.ctype = .MT_HALRCOMP_FULL_UPDATE then
    (fullUpdate st rx.comps).map (fun st1 => (st1, []))
  else if rx.ctype = .MT_HALRCOMMAND_ERROR then
    .ok (updateState st .Error .CommandError (notesToErrorString rx.notes))
  else
    .ok (st, [])

end QHalRemoteComponent

/-! ## Concrete fixtures used by witnesses and counterexamples -/

/-- An enabled output pin of Bit type with an assigned handle. -/
def pinOut : QHalPin :=
  { name := "p", ptype := .Bit, direction := .Out, value := .vBool true,
    handle := 7, synced := true }

/-- An enabled input pin. -/
def pinIn : QHalPin :=
  { name := "known", ptype := .Bit, direction := .In, value := .vBool false,
    handle := 3, synced := true }

/-- A fully connected component with one registered pin. -/
def compConnected : QHalRemoteComponent :=
  { connected := true, connectionState := .Connected,
    pinsByName := [("p", pinOut)], pinsByHandle := [(7, "p")],
    subSocketState := .Up, rpcSocketState := .Up,
    subReady := true, rpcReady := true }

/-- A freshly constructed, disconnected component. -/
def compDisconnected : QHalRemoteComponent := {}

/-- A SET_REJECT reply carrying one note. -/
def rxSetReject : Container :=
  { ctype := .MT_HALRCOMP_SET_REJECT, notes := ["pin change rejected"] }

/-- A full update whose single pin name does not resolve to any registered
pin after the component prefix is stripped. -/
def rxUnknownFullUpdate : Container :=
  { ctype := .MT_HALRCOMP_FULL_UPDATE,
    comps := [⟨"comp", [⟨"comp.unknown", 5, .Bit, some (.halbit true)⟩]⟩] }

/-- A component holding only the pin named known, as the full-update
handler would see it. -/
def compKnownOnly : QHalRemoteComponent :=
  { connected := true, connectionState := .Connected,
    pinsByName := [("known", pinIn)],
    subSocketState := .Up, rpcSocketState := .Up,
    subReady := true, rpcReady := true }

/-- A fresh rpc client: no socket, link Down. -/
def rpcFresh : MachinetalkRpcClient := {}

/-- An rpc client in steady Up state with the default threshold. -/
def rpcUp : MachinetalkRpcClient :=
  { ready := true, socket := true, socketState := .Up, timerActive := true }

/-- A subscriber in Timeout with one subscribed topic, as left behind by a
heartbeat timeout. -/
def subTimeout : MachinetalkSubscriber :=
  { ready := true, socket := true, socketState := .Timeout,
    topics := {"comp"}, subscriptions := {"comp"}, heartbeatPeriod := 0 }

/-- An incremental update envelope (not a full update, not a ping). -/
def rxIncremental : Container :=
  { ctype := .MT_HALRCOMP_INCREMENTAL_UPDATE }

/-- A full update envelope with no payload the subscriber inspects. -/
def rxFullUpdate : Container :=
  { ctype := .MT_HALRCOMP_FULL_UPDATE }

/-- The single reachability invariant of the subscriber supervisor used for
the subscription-set claim: topics never change, the tracked subscription
set is always the configured set or empty, a live socket implies the set is
the configured one, and Up or Trying implies a live socket. -/
def SubInv (topics : Finset String) (st : MachinetalkSubscriber) : Prop :=
  st.topics = topics ∧
  (st.subscriptions = topics ∨ st.subscriptions = ∅) ∧
  (st.socket = true → st.subscriptions = topics) ∧
  ((st.socketState = .Up ∨ st.socketState = .Trying) → st.socket = true)

/-! ## Helper lemmas -/

/-- The state-change block always stores the state it was given. -/
@[simp]
theorem statePhase_connectionState (st : QHalRemoteComponent) (s : CState) :
    (QHalRemoteComponent.statePhase st s).1.connectionState = s := by
  unfold QHalRemoteComponent.statePhase QHalRemoteComponent.unsyncPins
  dsimp only
  split <;> (try split) <;> (try split) <;> (try split) <;> simp_all

/-- The state-change block does not touch the stored error kind. -/
@[simp]
theorem statePhase_error (st : QHalRemoteComponent) (s : CState) :
    (QHalRemoteComponent.statePhase st s).1.error = st.error := by
  unfold QHalRemoteComponent.statePhase QHalRemoteComponent.unsyncPins
  dsimp only
  split <;> (try split) <;> (try split) <;> (try split) <;> simp_all

/-- The state-change block does not touch the error text. -/
@[simp]
theorem statePhase_errorString (st : QHalRemoteComponent) (s : CState) :
    (QHalRemoteComponent.statePhase st s).1.errorString = st.errorString := by
  unfold QHalRemoteComponent.statePhase QHalRemoteComponent.unsyncPins
  dsimp only
  split <;> (try split) <;> (try split) <;> (try split) <;> simp_all

/-- The state-change block does not touch the supervisor ready flags. -/
@[simp]
theorem statePhase_subReady (st : QHalRemoteComponent) (s : CState) :
    (QHalRemoteComponent.statePhase st s).1.subReady = st.subReady := by
  unfold QHalRemoteComponent.statePhase QHalRemoteComponent.unsyncPins
  dsimp only
  split <;> (try split) <;> (try split) <;> (try split) <;> simp_all

@[simp]
theorem statePhase_rpcReady (st : QHalRemoteComponent) (s : CState) :
    (QHalRemoteComponent.statePhase st s).1.rpcReady = st.rpcReady := by
  unfold QHalRemoteComponent.statePhase QHalRemoteComponent.unsyncPins
  dsimp only
  split <;> (try split) <;> (try split) <;> (try split) <;> simp_all

/-- The state-change block does not touch the supervisor state mirrors. -/
@[simp]
theorem statePhase_subSocketState (st : QHalRemoteComponent) (s : CState) :
    (QHalRemoteComponent.statePhase st s).1.subSocketState =
      st.subSocketState := by
  unfold QHalRemoteComponent.statePhase QHalRemoteComponent.unsyncPins
  dsimp only
  split <;> (try split) <;> (try split) <;> (try split) <;> simp_all

@[simp]
theorem statePhase_rpcSocketState (st : QHalRemoteComponent) (s : CState) :
    (QHalRemoteComponent.statePhase st s).1.rpcSocketState =
      st.rpcSocketState := by
  unfold QHalRemoteComponent.statePhase QHalRemoteComponent.unsyncPins
  dsimp only
  split <;> (try split) <;> (try split) <;> (try split) <;> simp_all

/-- The state-change block does not touch the handle index. -/
@[simp]
theorem statePhase_pinsByHandle (st : QHalRemoteComponent) (s : CState) :
    (QHalRemoteComponent.statePhase st s).1.pinsByHandle =
      st.pinsByHandle := by
  unfold QHalRemoteComponent.statePhase QHalRemoteComponent.unsyncPins
  dsimp only
  split <;> (try split) <;> (try split) <;> (try split) <;> simp_all

/-- Leaving Connected always drops the connected flag. -/
theorem statePhase_connected_out (st : QHalRemoteComponent) (s : CState)
    (hcs : st.connectionState = .Connected) (hs : s ≠ .Connected) :
    (QHalRemoteComponent.statePhase st s).1.connected = false := by
  have hne : s ≠ st.connectionState := by
    rw [hcs]
    exact hs
  by_cases hcn : st.connected = false <;>
    simp [QHalRemoteComponent.statePhase, QHalRemoteComponent.unsyncPins,
      hne, hcs, hs, hcn]

/-- Leaving Connected while the connected flag was raised emits the state
change (with the unsynced registry snapshot) and then connectedChanged. -/
theorem statePhase_events_out (st : QHalRemoteComponent) (s : CState)
    (hcs : st.connectionState = .Connected) (hs : s ≠ .Connected)
    (hcn : st.connected = true) :
    (QHalRemoteComponent.statePhase st s).2 =
      [.connectionStateChanged s
        (QHalRemoteComponent.unsyncPins st).pinsByName,
        .connectedChanged false] := by
  have hne : s ≠ st.connectionState := by
    rw [hcs]
    exact hs
  simp [QHalRemoteComponent.statePhase, QHalRemoteComponent.unsyncPins,
    hne, hcs, hs, hcn]

/-- The NoError error pass always ends with an empty error text. -/
@[simp]
theorem applyErrorNoError_errorString (st : QHalRemoteComponent) :
    (QHalRemoteComponent.applyErrorNoError st).1.errorString = "" := by
  by_cases h1 : st.errorString = "" <;> by_cases h2 : st.error = .NoError <;>
    simp [QHalRemoteComponent.applyErrorNoError, h1, h2]

/-- The NoError error pass always ends with error kind NoError. -/
@[simp]
theorem applyErrorNoError_error (st : QHalRemoteComponent) :
    (QHalRemoteComponent.applyErrorNoError st).1.error = .NoError := by
  by_cases h1 : st.errorString = "" <;> by_cases h2 : st.error = .NoError <;>
    simp [QHalRemoteComponent.applyErrorNoError, h1, h2]

/-- The NoError error pass touches only the error fields. -/
@[simp]
theorem applyErrorNoError_connectionState (st : QHalRemoteComponent) :
    (QHalRemoteComponent.applyErrorNoError st).1.connectionState =
      st.connectionState := by
  by_cases h1 : st.errorString = "" <;> by_cases h2 : st.error = .NoError <;>
    simp [QHalRemoteComponent.applyErrorNoError, h1, h2]

@[simp]
theorem applyErrorNoError_connected (st : QHalRemoteComponent) :
    (QHalRemoteComponent.applyErrorNoError st).1.connected =
      st.connected := by
  by_cases h1 : st.errorString = "" <;> by_cases h2 : st.error = .NoError <;>
    simp [QHalRemoteComponent.applyErrorNoError, h1, h2]

@[simp]
theorem applyErrorNoError_subReady (st : QHalRemoteComponent) :
    (QHalRemoteComponent.applyErrorNoError st).1.subReady = st.subReady := by
  by_cases h1 : st.errorString = "" <;> by_cases h2 : st.error = .NoError <;>
    simp [QHalRemoteComponent.applyErrorNoError, h1, h2]

@[simp]
theorem applyErrorNoError_rpcReady (st : QHalRemoteComponent) :
    (QHalRemoteComponent.applyErrorNoError st).1.rpcReady = st.rpcReady := by
  by_cases h1 : st.errorString = "" <;> by_cases h2 : st.error = .NoError <;>
    simp [QHalRemoteComponent.applyErrorNoError, h1, h2]

@[simp]
theorem applyErrorNoError_subSocketState (st : QHalRemoteComponent) :
    (QHalRemoteComponent.applyErrorNoError st).1.subSocketState =
      st.subSocketState := by
  by_cases h1 : st.errorString = "" <;> by_cases h2 : st.error = .NoError <;>
    simp [QHalRemoteComponent.applyErrorNoError, h1, h2]

@[simp]
theorem applyErrorNoError_rpcSocketState (st : QHalRemoteComponent) :
    (QHalRemoteComponent.applyErrorNoError st).1.rpcSocketState =
      st.rpcSocketState := by
  by_cases h1 : st.errorString = "" <;> by_cases h2 : st.error = .NoError <;>
    simp [QHalRemoteComponent.applyErrorNoError, h1, h2]

@[simp]
theorem applyErrorNoError_pinsByName (st : QHalRemoteComponent) :
    (QHalRemoteComponent.applyErrorNoError st).1.pinsByName =
      st.pinsByName := by
  by_cases h1 : st.errorString = "" <;> by_cases h2 : st.error = .NoError <;>
    simp [QHalRemoteComponent.applyErrorNoError, h1, h2]

@[simp]
theorem applyErrorNoError_pinsByHandle (st : QHalRemoteComponent) :
    (QHalRemoteComponent.applyErrorNoError st).1.pinsByHandle =
      st.pinsByHandle := by
  by_cases h1 : st.errorString = "" <;> by_cases h2 : st.error = .NoError <;>
    simp [QHalRemoteComponent.applyErrorNoError, h1, h2]

/-- Derived field equations of the single-argument updateState overload. -/
@[simp]
theorem updateStateSimple_connectionState (st : QHalRemoteComponent)
    (s : CState) :
    (QHalRemoteComponent.updateStateSimple st s).1.connectionState = s := by
  simp [QHalRemoteComponent.updateStateSimple]

@[simp]
theorem updateStateSimple_errorString (st : QHalRemoteComponent)
    (s : CState) :
    (QHalRemoteComponent.updateStateSimple st s).1.errorString = "" := by
  simp [QHalRemoteComponent.updateStateSimple]

@[simp]
theorem updateStateSimple_error (st : QHalRemoteComponent) (s : CState) :
    (QHalRemoteComponent.updateStateSimple st s).1.error = .NoError := by
  simp [QHalRemoteComponent.updateStateSimple]

@[simp]
theorem updateStateSimple_subReady (st : QHalRemoteComponent) (s : CState) :
    (QHalRemoteComponent.updateStateSimple st s).1.subReady =
      st.subReady := by
  simp [QHalRemoteComponent.updateStateSimple]

@[simp]
theorem updateStateSimple_rpcReady (st : QHalRemoteComponent) (s : CState) :
    (QHalRemoteComponent.updateStateSimple st s).1.rpcReady =
      st.rpcReady := by
  simp [QHalRemoteComponent.updateStateSimple]

@[simp]
theorem updateStateSimple_subSocketState (st : QHalRemoteComponent)
    (s : CState) :
    (QHalRemoteComponent.updateStateSimple st s).1.subSocketState =
      st.subSocketState := by
  simp [QHalRemoteComponent.updateStateSimple]

@[simp]
theorem updateStateSimple_rpcSocketState (st : QHalRemoteComponent)
    (s : CState) :
    (QHalRemoteComponent.updateStateSimple st s).1.rpcSocketState =
      st.rpcSocketState := by
  simp [QHalRemoteComponent.updateStateSimple]

@[simp]
theorem updateStateSimple_pinsByHandle (st : QHalRemoteComponent)
    (s : CState) :
    (QHalRemoteComponent.updateStateSimple st s).1.pinsByHandle =
      st.pinsByHandle := by
  simp [QHalRemoteComponent.updateStateSimple]

/-- The single-argument overload is the full updateState at NoError and the
empty error text: the cleanup branch is unreachable there. -/
theorem updateStateSimple_eq (st : QHalRemoteComponent) (s : CState) :
    QHalRemoteComponent.updateStateSimple st s =
      QHalRemoteComponent.updateState st s .NoError "" := by
  unfold QHalRemoteComponent.updateStateSimple QHalRemoteComponent.updateState
    QHalRemoteComponent.applyErrorNoError QHalRemoteComponent.updateError
  dsimp only
  by_cases h1 : (QHalRemoteComponent.statePhase st s).1.errorString = "" <;>
    by_cases h2 : (QHalRemoteComponent.statePhase st s).1.error =
      .NoError <;>
      simp [h1, h2]

/-- The socketStateChanged slot preserves the ready flags and the state
mirrors, and stores the composite state with a cleared error text. -/
@[simp]
theorem socketStateChanged_subReady (st : QHalRemoteComponent) :
    (QHalRemoteComponent.socketStateChanged st).1.subReady = st.subReady := by
  simp [QHalRemoteComponent.socketStateChanged]

@[simp]
theorem socketStateChanged_rpcReady (st : QHalRemoteComponent) :
    (QHalRemoteComponent.socketStateChanged st).1.rpcReady = st.rpcReady := by
  simp [QHalRemoteComponent.socketStateChanged]

@[simp]
theorem socketStateChanged_subSocketState (st : QHalRemoteComponent) :
    (QHalRemoteComponent.socketStateChanged st).1.subSocketState =
      st.subSocketState := by
  simp [QHalRemoteComponent.socketStateChanged]

@[simp]
theorem socketStateChanged_rpcSocketState (st : QHalRemoteComponent) :
    (QHalRemoteComponent.socketStateChanged st).1.rpcSocketState =
      st.rpcSocketState := by
  simp [QHalRemoteComponent.socketStateChanged]

@[simp]
theorem socketStateChanged_pinsByHandle (st : QHalRemoteComponent) :
    (QHalRemoteComponent.socketStateChanged st).1.pinsByHandle =
      st.pinsByHandle := by
  simp [QHalRemoteComponent.socketStateChanged]

/-- The subscriber teardown leaves the subscriber not ready. -/
@[simp]
theorem subSetReadyFalse_subReady (st : QHalRemoteComponent) :
    (QHalRemoteComponent.subSetReadyFalse st).1.subReady = false := by
  unfold QHalRemoteComponent.subSetReadyFalse
  dsimp only
  by_cases h : st.subReady = false
  · simp [h]
  · by_cases h2 : st.subSocketState = .Down <;> simp [h, h2]

/-- The subscriber teardown does not touch the rpc ready flag. -/
@[simp]
theorem subSetReadyFalse_rpcReady (st : QHalRemoteComponent) :
    (QHalRemoteComponent.subSetReadyFalse st).1.rpcReady = st.rpcReady := by
  unfold QHalRemoteComponent.subSetReadyFalse
  dsimp only
  by_cases h : st.subReady = false
  · simp [h]
  · by_cases h2 : st.subSocketState = .Down <;> simp [h, h2]

/-- The rpc teardown leaves the rpc client not ready. -/
@[simp]
theorem rpcSetReadyFalse_rpcReady (st : QHalRemoteComponent) :
    (QHalRemoteComponent.rpcSetReadyFalse st).1.rpcReady = false := by
  unfold QHalRemoteComponent.rpcSetReadyFalse
  dsimp only
  by_cases h : st.rpcReady = false
  · simp [h]
  · by_cases h2 : st.rpcSocketState = .Down <;> simp [h, h2]

/-- The rpc teardown keeps the subscriber not ready. -/
theorem rpcSetReadyFalse_subReady_of_false (st : QHalRemoteComponent)
    (h : st.subReady = false) :
    (QHalRemoteComponent.rpcSetReadyFalse st).1.subReady = false := by
  unfold QHalRemoteComponent.rpcSetReadyFalse
  dsimp only
  by_cases h1 : st.rpcReady = false
  · simpa [h1] using h
  · by_cases h2 : st.rpcSocketState = .Down <;> simp [h1, h2, h]

/-- cleanup clears the name index. -/
@[simp]
theorem cleanup_pinsByName (st : QHalRemoteComponent) :
    (QHalRemoteComponent.cleanup st).1.pinsByName = [] := by
  simp [QHalRemoteComponent.cleanup, QHalRemoteComponent.removePins]

/-- cleanup clears the handle index. -/
@[simp]
theorem cleanup_pinsByHandle (st : QHalRemoteComponent) :
    (QHalRemoteComponent.cleanup st).1.pinsByHandle = [] := by
  simp [QHalRemoteComponent.cleanup, QHalRemoteComponent.removePins]

/-- cleanup leaves the subscriber not ready. -/
@[simp]
theorem cleanup_subReady (st : QHalRemoteComponent) :
    (QHalRemoteComponent.cleanup st).1.subReady = false := by
  unfold QHalRemoteComponent.cleanup
  dsimp only
  simp only [QHalRemoteComponent.removePins]
  exact rpcSetReadyFalse_subReady_of_false _ (subSetReadyFalse_subReady st)

/-- cleanup leaves the rpc client not ready. -/
@[simp]
theorem cleanup_rpcReady (st : QHalRemoteComponent) :
    (QHalRemoteComponent.cleanup st).1.rpcReady = false := by
  simp [QHalRemoteComponent.cleanup, QHalRemoteComponent.removePins]

/-- updateError always stores the error kind it was given (the assignment
happens after the cleanup cascade returns). -/
theorem updateError_error (st : QHalRemoteComponent) (e : CError)
    (es : String) :
    (QHalRemoteComponent.updateError st e es).1.error = e := by
  unfold QHalRemoteComponent.updateError
  dsimp only
  by_cases h1 : st.errorString = es <;> by_cases h2 : st.error = e <;>
    simp [h1, h2]

/-- updateState always stores the error kind it was given. -/
theorem updateState_error (st : QHalRemoteComponent) (s : CState)
    (e : CError) (es : String) :
    (QHalRemoteComponent.updateState st s e es).1.error = e := by
  unfold QHalRemoteComponent.updateState
  dsimp only
  simp only [updateError_error]

/-- When the stored error kind changes to a real error, updateError tears
the component down: both supervisors end not ready and both pin indices are
cleared, whatever the cascade did in between. -/
theorem updateError_teardown (st : QHalRemoteComponent) (e : CError)
    (es : String) (h : st.error ≠ e) (he : e ≠ .NoError) :
    (QHalRemoteComponent.updateError st e es).1.pinsByName = [] ∧
    (QHalRemoteComponent.updateError st e es).1.pinsByHandle = [] ∧
    (QHalRemoteComponent.updateError st e es).1.subReady = false ∧
    (QHalRemoteComponent.updateError st e es).1.rpcReady = false := by
  unfold QHalRemoteComponent.updateError
  dsimp only
  by_cases h1 : st.errorString = es <;>
    simp [h1, h, he]

/-- The state-change block does not touch the stored error kind, so a change
of error kind through updateState tears the component down exactly as
updateError does. -/
theorem updateState_teardown (st : QHalRemoteComponent) (s : CState)
    (e : CError) (es : String) (h : st.error ≠ e) (he : e ≠ .NoError) :
    (QHalRemoteComponent.updateState st s e es).1.pinsByName = [] ∧
    (QHalRemoteComponent.updateState st s e es).1.pinsByHandle = [] ∧
    (QHalRemoteComponent.updateState st s e es).1.subReady = false ∧
    (QHalRemoteComponent.updateState st s e es).1.rpcReady = false := by
  unfold QHalRemoteComponent.updateState
  dsimp only
  exact updateError_teardown _ _ _ (by rw [statePhase_error]; exact h) he

/-- The cleanup cascade at a live session: with both supervisors ready and
Up and the component already in Error, the subscriber teardown re-enters the
composite state machine, which overwrites the connection state with
Disconnected and wipes the error text; the rpc teardown then re-enters once
more with no further change. -/
theorem cleanup_live (X : QHalRemoteComponent) (he2 : X.error = .NoError)
    (hsr : X.subReady = true) (hrr : X.rpcReady = true)
    (hss : X.subSocketState = .Up) (hrs : X.rpcSocketState = .Up)
    (hcs : X.connectionState = .Error) (hcn : X.connected = false) :
    (QHalRemoteComponent.cleanup X).1.connectionState = .Disconnected ∧
    (QHalRemoteComponent.cleanup X).1.errorString = "" ∧
    (QHalRemoteComponent.cleanup X).1.subSocketState = .Down ∧
    (QHalRemoteComponent.cleanup X).1.rpcSocketState = .Down := by
  refine ⟨?_, ?_, ?_, ?_⟩ <;>
    by_cases hxe : X.errorString = "" <;>
      simp [QHalRemoteComponent.cleanup, QHalRemoteComponent.subSetReadyFalse,
        QHalRemoteComponent.rpcSetReadyFalse,
        QHalRemoteComponent.socketStateChanged,
        QHalRemoteComponent.updateStateSimple, QHalRemoteComponent.statePhase,
        QHalRemoteComponent.applyErrorNoError,
        QHalRemoteComponent.compositeState, QHalRemoteComponent.removePins,
        QHalRemoteComponent.unsyncPins, he2, hsr, hrr, hss, hrs, hcs, hcn,
        hxe]

/-- updateError entering PinChangeError from a live Error-bound state: the
error text is first set to the notes, then the cleanup cascade overwrites
the connection state with Disconnected and wipes the text; the error kind is
stored last, and the notes appear as the first emitted error-text change. -/
theorem updateError_live (X : QHalRemoteComponent) (es : String)
    (he2 : X.error = .NoError) (hxe : X.errorString = "") (hnz : es ≠ "")
    (hsr : X.subReady = true) (hrr : X.rpcReady = true)
    (hss : X.subSocketState = .Up) (hrs : X.rpcSocketState = .Up)
    (hcs : X.connectionState = .Error) (hcn : X.connected = false) :
    (QHalRemoteComponent.updateError X .PinChangeError
      es).1.connectionState = .Disconnected ∧
    (QHalRemoteComponent.updateError X .PinChangeError es).1.errorString =
      "" ∧
    (QHalRemoteComponent.updateError X .PinChangeError
      es).1.subSocketState = .Down ∧
    (QHalRemoteComponent.updateError X .PinChangeError
      es).1.rpcSocketState = .Down ∧
    HSignal.errorStringChanged es ∈
      (QHalRemoteComponent.updateError X .PinChangeError es).2 := by
  have hc1 : X.errorString ≠ es := by
    rw [hxe]
    exact fun hh => hnz hh.symm
  have hlive := cleanup_live { X with errorString := es }
    (by simpa using he2) (by simpa using hsr) (by simpa using hrr)
    (by simpa using hss) (by simpa using hrs) (by simpa using hcs)
    (by simpa using hcn)
  unfold QHalRemoteComponent.updateError
  dsimp only
  rw [if_pos hc1]
  dsimp only
  rw [if_pos (by simpa using
    (show X.error ≠ .PinChangeError by rw [he2]; decide))]
  rw [if_pos (by decide : (CError.PinChangeError ≠ .NoError))]
  dsimp only
  exact ⟨hlive.1, hlive.2.1, hlive.2.2.1, hlive.2.2.2, by simp⟩

/-! ## Claim theorems -/

/-- C2: for every pair of supervisor link states (s = subscriber, r = rpc),
on any supervisor state change the composite connectionState is computed by
priority: Connected if s = Up and r = Up; else Timeout if s = Timeout or
r = Timeout; else Connecting if s = Trying or r = Trying; else Disconnected;
and the socketStateChanged slot feeds exactly this merge into updateState,
which stores it as the connection state. -/
theorem c2_composite_state_priority :
    (∀ s r : SocketState,
      ((s = .Up ∧ r = .Up) →
        QHalRemoteComponent.compositeState s r = .Connected) ∧
      (¬(s = .Up ∧ r = .Up) → (s = .Timeout ∨ r = .Timeout) →
        QHalRemoteComponent.compositeState s r = .Timeout) ∧
      (¬(s = .Up ∧ r = .Up) → ¬(s = .Timeout ∨ r = .Timeout) →
        (s = .Trying ∨ r = .Trying) →
        QHalRemoteComponent.compositeState s r = .Connecting) ∧
      (¬(s = .Up ∧ r = .Up) → ¬(s = .Timeout ∨ r = .Timeout) →
        ¬(s = .Trying ∨ r = .Trying) →
        QHalRemoteComponent.compositeState s r = .Disconnected)) ∧
    (∀ st : QHalRemoteComponent,
      QHalRemoteComponent.socketStateChanged st =
        QHalRemoteComponent.updateState st
          (QHalRemoteComponent.compositeState st.subSocketState
            st.rpcSocketState) .NoError "") ∧
    (∀ st : QHalRemoteComponent,
      (QHalRemoteComponent.socketStateChanged st).1.connectionState =
        QHalRemoteComponent.compositeState st.subSocketState
          st.rpcSocketState) := by
  refine ⟨fun s r => ?_, fun st => updateStateSimple_eq st _, fun st => ?_⟩
  · cases s <;> cases r <;>
      exact ⟨by decide, by decide, by decide, by decide⟩
  · simp [QHalRemoteComponent.socketStateChanged]

/-- Witness for C2 at concrete link states: both Up merges to Connected, and
a subscriber Timeout (rpc Down) merges to Timeout. -/
theorem c2_composite_state_priority_witness :
    QHalRemoteComponent.compositeState .Up .Up = .Connected ∧
    QHalRemoteComponent.compositeState .Timeout .Down = .Timeout :=
  ⟨(c2_composite_state_priority.1 .Up .Up).1 ⟨rfl, rfl⟩,
    (c2_composite_state_priority.1 .Timeout .Down).2.1 (by decide)
      (Or.inl rfl)⟩

/-- C4: for every local pin change, no HALRCOMP_SET record is handed to the
rpc client while the connection state is not Connected, and a record is
produced only when the state is Connected and the pin direction is Out or
IO, carrying the pin handle, its type, and the type-tagged value. -/
theorem c4_set_only_when_connected :
    ∀ (st : QHalRemoteComponent) (pin : QHalPin),
      (st.connectionState ≠ .Connected →
        QHalRemoteComponent.pinChange st pin = none) ∧
      (∀ m, QHalRemoteComponent.pinChange st pin = some m →
        st.connectionState = .Connected ∧
        (pin.direction = .Out ∨ pin.direction = .IOPin) ∧
        m.handle = pin.handle ∧ m.ptype = pin.ptype ∧
        m.value = taggedValue pin.ptype pin.value) := by
  intro st pin
  constructor
  · intro h
    simp [QHalRemoteComponent.pinChange, h]
  · intro m hm
    by_cases h1 : st.connectionState = .Connected
    · by_cases h2 : pin.direction = .In
      · simp [QHalRemoteComponent.pinChange, h1, h2] at hm
      · have hd : pin.direction = .Out ∨ pin.direction = .IOPin := by
          cases hdir : pin.direction <;> simp_all
        simp [QHalRemoteComponent.pinChange, h1, h2] at hm
        exact ⟨h1, hd, by simp [← hm], by simp [← hm], by simp [← hm]⟩
    · simp [QHalRemoteComponent.pinChange, h1] at hm

/-- Witness for C4: the disconnected component drops the change of an Out
pin, and the connected component produces exactly the handle, type and
tagged value of that pin. -/
theorem c4_set_only_when_connected_witness :
    QHalRemoteComponent.pinChange compDisconnected pinOut = none ∧
    (compConnected.connectionState = .Connected ∧
      (pinOut.direction = .Out ∨ pinOut.direction = .IOPin) ∧
      SetPin.handle ⟨7, .Bit, .halbit true⟩ = pinOut.handle ∧
      SetPin.ptype ⟨7, .Bit, .halbit true⟩ = pinOut.ptype ∧
      SetPin.value ⟨7, .Bit, .halbit true⟩ =
        taggedValue pinOut.ptype pinOut.value) :=
  ⟨(c4_set_only_when_connected compDisconnected pinOut).1 (by decide),
    (c4_set_only_when_connected compConnected pinOut).2
      ⟨7, .Bit, .halbit true⟩ (by decide)⟩

/-- C9 counterexample: on a not-connected rpc client (m_socket NULL), a send
does not enter Error and sets no error text; it returns with no state
change and no emission, contrary to the claimed Socket failure. -/
theorem c9_counterexample_silent_return :
    (MachinetalkRpcClient.sendMessage rpcFresh .MT_PING).1.socketState ≠
      .Error ∧
    (MachinetalkRpcClient.sendMessage rpcFresh .MT_PING).1.errorString =
      "" ∧
    (MachinetalkRpcClient.sendMessage rpcFresh .MT_PING).2 = [] := by
  decide

/-- C9 amended: every call to the rpc client send operation while the
socket is not connected returns silently: nothing is written and the whole
client state (link state and error text included) is unchanged. -/
theorem c9_send_silent_when_disconnected :
    ∀ (st : MachinetalkRpcClient) (t : ContainerType),
      st.socket = false →
      MachinetalkRpcClient.sendMessage st t = (st, []) := by
  intro st t h
  simp [MachinetalkRpcClient.sendMessage, h]

/-- Witness for C9 amended at the fresh client: a PING send is a no-op. -/
theorem c9_send_silent_when_disconnected_witness :
    MachinetalkRpcClient.sendMessage rpcFresh .MT_PING = (rpcFresh, []) :=
  c9_send_silent_when_disconnected rpcFresh .MT_PING (by decide)

/-- C10: in both supervisors, whenever updateState changes the stored error
text the errorStringChanged signal is emitted with the empty string as its
payload (never the new text); every errorStringChanged emission carries the
empty string; and when the link state does not change the call is a
complete no-op, so an error-text change is never observable outside a
link-state transition. -/
theorem c10_error_text_tied_to_state_change :
    (∀ (st : MachinetalkRpcClient) (s : SocketState) (es : String),
      ((MachinetalkRpcClient.updateState st s es).1.errorString ≠
          st.errorString →
        RpcSignal.errorStringChanged "" ∈
          (MachinetalkRpcClient.updateState st s es).2) ∧
      (∀ x, RpcSignal.errorStringChanged x ∈
          (MachinetalkRpcClient.updateState st s es).2 → x = "") ∧
      (s = st.socketState →
        MachinetalkRpcClient.updateState st s es = (st, []))) ∧
    (∀ (st : MachinetalkSubscriber) (s : SocketState) (es : String),
      ((MachinetalkSubscriber.updateState st s es).1.errorString ≠
          st.errorString →
        SubSignal.errorStringChanged "" ∈
          (MachinetalkSubscriber.updateState st s es).2) ∧
      (∀ x, SubSignal.errorStringChanged x ∈
          (MachinetalkSubscriber.updateState st s es).2 → x = "") ∧
      (s = st.socketState →
        MachinetalkSubscriber.updateState st s es = (st, []))) := by
  constructor
  · intro st s es
    by_cases h1 : s = st.socketState
    · simp [MachinetalkRpcClient.updateState, h1]
    · by_cases h2 : es = st.errorString <;>
        simp [MachinetalkRpcClient.updateState, h1, h2]
  · intro st s es
    by_cases h1 : s = st.socketState
    · simp [MachinetalkSubscriber.updateState, h1]
    · by_cases h2 : es = st.errorString <;>
        simp [MachinetalkSubscriber.updateState, h1, h2]

/-- Witness for C10 on a concrete transition: moving the fresh rpc client
from Down to Error with a nonempty error text changes the stored text, and
the signal list carries errorStringChanged with the empty payload. -/
theorem c10_error_text_tied_to_state_change_witness :
    RpcSignal.errorStringChanged "" ∈
      (MachinetalkRpcClient.updateState rpcFresh .Error "boom").2 ∧
    MachinetalkRpcClient.updateState rpcFresh .Down "" = (rpcFresh, []) :=
  ⟨((c10_error_text_tied_to_state_change.1 rpcFresh .Error "boom").1
      (by decide)),
    ((c10_error_text_tied_to_state_change.1 rpcFresh .Down "").2.2 rfl)⟩

/-- MachinetalkRpcClient.updateState stores the state it was given. -/
theorem rpc_updateState_socketState (st : MachinetalkRpcClient)
    (s : SocketState) (es : String) :
    (MachinetalkRpcClient.updateState st s es).1.socketState = s := by
  by_cases h1 : s = st.socketState <;>
    by_cases h2 : es = st.errorString <;>
      simp [MachinetalkRpcClient.updateState, h1, h2]

/-- MachinetalkRpcClient.updateState touches no counter and no socket. -/
theorem rpc_updateState_counters (st : MachinetalkRpcClient)
    (s : SocketState) (es : String) :
    (MachinetalkRpcClient.updateState st s es).1.pingErrorCount =
      st.pingErrorCount ∧
    (MachinetalkRpcClient.updateState st s es).1.pingErrorThreshold =
      st.pingErrorThreshold ∧
    (MachinetalkRpcClient.updateState st s es).1.socket = st.socket := by
  by_cases h1 : s = st.socketState <;>
    by_cases h2 : es = st.errorString <;>
      simp [MachinetalkRpcClient.updateState, h1, h2]

/-- MachinetalkRpcClient.sendMessage changes neither the link state nor the
counters nor the socket. -/
theorem rpc_sendMessage_state (st : MachinetalkRpcClient)
    (t : ContainerType) :
    (MachinetalkRpcClient.sendMessage st t).1.socketState = st.socketState ∧
    (MachinetalkRpcClient.sendMessage st t).1.pingErrorCount =
      st.pingErrorCount ∧
    (MachinetalkRpcClient.sendMessage st t).1.pingErrorThreshold =
      st.pingErrorThreshold ∧
    (MachinetalkRpcClient.sendMessage st t).1.socket = st.socket := by
  by_cases hs : st.socket = false <;>
    by_cases ht : t = .MT_PING <;>
      simp [MachinetalkRpcClient.sendMessage,
        MachinetalkRpcClient.refreshHeartbeat, hs, ht]

/-- A heartbeat tick always increments the outstanding-ping counter. -/
theorem rpc_tick_count (st : MachinetalkRpcClient) :
    (MachinetalkRpcClient.heartbeatTimerTick st).1.pingErrorCount =
      st.pingErrorCount + 1 := by
  unfold MachinetalkRpcClient.heartbeatTimerTick
  dsimp only
  split
  · rw [(rpc_updateState_counters _ _ _).1]
    dsimp only
    rw [(rpc_sendMessage_state st .MT_PING).2.1]
  · dsimp only
    rw [(rpc_sendMessage_state st .MT_PING).2.1]

/-- A heartbeat tick preserves the threshold. -/
theorem rpc_tick_threshold (st : MachinetalkRpcClient) :
    (MachinetalkRpcClient.heartbeatTimerTick st).1.pingErrorThreshold =
      st.pingErrorThreshold := by
  unfold MachinetalkRpcClient.heartbeatTimerTick
  dsimp only
  split
  · rw [(rpc_updateState_counters _ _ _).2.1]
    dsimp only
    rw [(rpc_sendMessage_state st .MT_PING).2.2.1]
  · dsimp only
    rw [(rpc_sendMessage_state st .MT_PING).2.2.1]

/-- A heartbeat tick preserves the socket. -/
theorem rpc_tick_socket (st : MachinetalkRpcClient) :
    (MachinetalkRpcClient.heartbeatTimerTick st).1.socket = st.socket := by
  unfold MachinetalkRpcClient.heartbeatTimerTick
  dsimp only
  split
  · rw [(rpc_updateState_counters _ _ _).2.2]
    dsimp only
    rw [(rpc_sendMessage_state st .MT_PING).2.2.2]
  · dsimp only
    rw [(rpc_sendMessage_state st .MT_PING).2.2.2]

/-- While Up, a tick transitions to Timeout exactly when the incremented
counter exceeds the threshold, and otherwise stays Up. -/
theorem rpc_tick_timeout_iff (st : MachinetalkRpcClient)
    (h : st.socketState = .Up) :
    ((MachinetalkRpcClient.heartbeatTimerTick st).1.socketState = .Timeout ↔
      st.pingErrorCount + 1 > st.pingErrorThreshold) ∧
    (¬st.pingErrorCount + 1 > st.pingErrorThreshold →
      (MachinetalkRpcClient.heartbeatTimerTick st).1.socketState = .Up) := by
  have hsend := rpc_sendMessage_state st .MT_PING
  unfold MachinetalkRpcClient.heartbeatTimerTick
  dsimp only
  by_cases hc : st.pingErrorCount + 1 > st.pingErrorThreshold
  · rw [if_pos]
    · constructor
      · rw [rpc_updateState_socketState]
        simp [hc]
      · intro hn
        exact absurd hc hn
    · constructor
      · rw [hsend.2.2.1, hsend.2.1]
        exact hc
      · rw [hsend.1, h]
  · rw [if_neg]
    · dsimp only
      rw [hsend.1, h]
      simp [hc]
    · rw [hsend.2.2.1, hsend.2.1, hsend.1, h]
      intro hcontra
      exact hc hcontra.1

/-- A tick in any state other than Up never changes the link state. -/
theorem rpc_tick_not_up (st : MachinetalkRpcClient)
    (h : st.socketState ≠ .Up) :
    (MachinetalkRpcClient.heartbeatTimerTick st).1.socketState =
      st.socketState := by
  have hsend := rpc_sendMessage_state st .MT_PING
  unfold MachinetalkRpcClient.heartbeatTimerTick
  dsimp only
  rw [if_neg]
  · dsimp only
    exact hsend.1
  · rw [hsend.1]
    intro hcontra
    exact h hcontra.2

/-- A tick through a connected socket writes a PING on the wire. -/
theorem rpc_tick_sends_ping (st : MachinetalkRpcClient)
    (h : st.socket = true) :
    RpcSignal.wireSent .MT_PING ∈
      (MachinetalkRpcClient.heartbeatTimerTick st).2 := by
  have hp : (MachinetalkRpcClient.sendMessage st .MT_PING).2 =
      [RpcSignal.wireSent .MT_PING] := by
    simp [MachinetalkRpcClient.sendMessage, h]
  unfold MachinetalkRpcClient.heartbeatTimerTick
  dsimp only
  split <;> simp [hp]

/-- C5: for the rpc supervisor, every inbound message zeroes the
outstanding-ping counter and latches the link to Up; each heartbeat tick
through a connected socket writes a PING and increments the counter; from
Up the tick transitions to Timeout exactly when the incremented counter
exceeds the threshold (and only from Up); and with the default threshold 2
and a zero counter, the third consecutive silent tick is the one entering
Timeout. -/
theorem c5_rpc_heartbeat_supervision :
    (∀ (st : MachinetalkRpcClient) (rx : Container),
      (MachinetalkRpcClient.socketMessageReceived st rx).1.pingErrorCount =
        0 ∧
      (MachinetalkRpcClient.socketMessageReceived st rx).1.socketState =
        .Up) ∧
    (∀ st : MachinetalkRpcClient, st.socket = true →
      RpcSignal.wireSent .MT_PING ∈
        (MachinetalkRpcClient.heartbeatTimerTick st).2 ∧
      (MachinetalkRpcClient.heartbeatTimerTick st).1.pingErrorCount =
        st.pingErrorCount + 1) ∧
    (∀ st : MachinetalkRpcClient, st.socketState = .Up →
      ((MachinetalkRpcClient.heartbeatTimerTick st).1.socketState =
          .Timeout ↔
        st.pingErrorCount + 1 > st.pingErrorThreshold)) ∧
    (∀ st : MachinetalkRpcClient, st.socketState ≠ .Up →
      (MachinetalkRpcClient.heartbeatTimerTick st).1.socketState =
        st.socketState) ∧
    (∀ st : MachinetalkRpcClient,
      st.socketState = .Up → st.pingErrorCount = 0 →
      st.pingErrorThreshold = 2 →
      (MachinetalkRpcClient.heartbeatTimerTick st).1.socketState = .Up ∧
      (MachinetalkRpcClient.heartbeatTimerTick
        (MachinetalkRpcClient.heartbeatTimerTick st).1).1.socketState =
        .Up ∧
      (MachinetalkRpcClient.heartbeatTimerTick
        (MachinetalkRpcClient.heartbeatTimerTick
          (MachinetalkRpcClient.heartbeatTimerTick st).1).1).1.socketState =
        .Timeout) := by
  refine ⟨?_, ?_, ?_, ?_, ?_⟩
  · intro st rx
    constructor
    · unfold MachinetalkRpcClient.socketMessageReceived
      dsimp only
      split <;> simp [(rpc_updateState_counters _ _ _).1]
    · unfold MachinetalkRpcClient.socketMessageReceived
      dsimp only
      split <;> simp [rpc_updateState_socketState]
  · intro st h
    exact ⟨rpc_tick_sends_ping st h, rpc_tick_count st⟩
  · intro st h
    exact (rpc_tick_timeout_iff st h).1
  · intro st h
    exact rpc_tick_not_up st h
  · intro st h hc ht
    have h1s : (MachinetalkRpcClient.heartbeatTimerTick st).1.socketState =
        .Up := by
      refine (rpc_tick_timeout_iff st h).2 ?_
      rw [hc, ht]
      decide
    have h1c := rpc_tick_count st
    have h1t := rpc_tick_threshold st
    rw [hc] at h1c
    rw [ht] at h1t
    have h2s : (MachinetalkRpcClient.heartbeatTimerTick
        (MachinetalkRpcClient.heartbeatTimerTick st).1).1.socketState =
        .Up := by
      refine (rpc_tick_timeout_iff _ h1s).2 ?_
      rw [h1c, h1t]
      decide
    have h2c := rpc_tick_count (MachinetalkRpcClient.heartbeatTimerTick st).1
    have h2t :=
      rpc_tick_threshold (MachinetalkRpcClient.heartbeatTimerTick st).1
    rw [h1c] at h2c
    rw [h1t] at h2t
    refine ⟨h1s, h2s, ?_⟩
    rw [(rpc_tick_timeout_iff _ h2s).1, h2c, h2t]
    decide

/-- Witness for C5 at the steady Up client with default threshold: a
message resets the counter, one tick writes a PING, a non-Up client keeps
its state on tick, and three silent ticks reach Timeout. -/
theorem c5_rpc_heartbeat_supervision_witness :
    ((MachinetalkRpcClient.socketMessageReceived rpcUp
        rxFullUpdate).1.pingErrorCount = 0 ∧
      (MachinetalkRpcClient.socketMessageReceived rpcUp
        rxFullUpdate).1.socketState = .Up) ∧
    RpcSignal.wireSent .MT_PING ∈
      (MachinetalkRpcClient.heartbeatTimerTick rpcUp).2 ∧
    (MachinetalkRpcClient.heartbeatTimerTick rpcFresh).1.socketState =
      .Down ∧
    (MachinetalkRpcClient.heartbeatTimerTick
      (MachinetalkRpcClient.heartbeatTimerTick
        (MachinetalkRpcClient.heartbeatTimerTick rpcUp).1).1).1.socketState =
      .Timeout :=
  ⟨c5_rpc_heartbeat_supervision.1 rpcUp rxFullUpdate,
    (c5_rpc_heartbeat_supervision.2.1 rpcUp (by decide)).1,
    c5_rpc_heartbeat_supervision.2.2.2.1 rpcFresh (by decide),
    (c5_rpc_heartbeat_supervision.2.2.2.2 rpcUp (by decide) (by decide)
      (by decide)).2.2⟩

/-- C3: on every transition of the connection state out of Connected, the
first emitted event is the state-change signal, and the registry an external
observer reads at that emission already has every registered pin unsynced. -/
theorem c3_unsync_before_state_emit :
    ∀ (st : QHalRemoteComponent) (s : CState) (e : CError) (es : String),
      st.connectionState = .Connected → s ≠ .Connected →
      (QHalRemoteComponent.updateState st s e es).2.head? =
        some (.connectionStateChanged s
          (QHalRemoteComponent.unsyncPins st).pinsByName) ∧
      ∀ np ∈ (QHalRemoteComponent.unsyncPins st).pinsByName,
        np.2.synced = false := by
  intro st s e es h1 h2
  constructor
  · have hne : s ≠ st.connectionState := by
      rw [h1]
      exact h2
    have hev : ∃ rest, (QHalRemoteComponent.statePhase st s).2 =
        .connectionStateChanged s
          (QHalRemoteComponent.unsyncPins st).pinsByName :: rest := by
      by_cases hconn : st.connected = false
      · exact ⟨[], by
          simp [QHalRemoteComponent.statePhase,
            QHalRemoteComponent.unsyncPins, hne, h1, h2, hconn]⟩
      · exact ⟨[.connectedChanged false], by
          simp [QHalRemoteComponent.statePhase,
            QHalRemoteComponent.unsyncPins, hne, h1, h2, hconn]⟩
    obtain ⟨rest, hrest⟩ := hev
    unfold QHalRemoteComponent.updateState
    dsimp only
    rw [hrest]
    simp
  · intro np hnp
    simp [QHalRemoteComponent.unsyncPins, List.mem_map] at hnp
    obtain ⟨a, b, hab, h3⟩ := hnp
    rw [← h3]

/-- Witness for C3: leaving Connected for Timeout on the connected
component, the state-change event heads the emission list with the fully
unsynced registry. -/
theorem c3_unsync_before_state_emit_witness :
    (QHalRemoteComponent.updateState compConnected .Timeout .NoError
        "").2.head? =
      some (.connectionStateChanged .Timeout
        (QHalRemoteComponent.unsyncPins compConnected).pinsByName) :=
  (c3_unsync_before_state_emit compConnected .Timeout .NoError ""
    (by decide) (by decide)).1

/-- C1 counterexample: on a concrete connected session with one registered
pin and both supervisors ready, a HALRCOMP_SET_REJECT leaves neither
supervisor ready, clears the pin registry, and - through the synchronous
teardown cascade - ends in connectionState Disconnected with an empty
errorString, contradicting the claimed Error/PinChange presentation with
the notes retained and the session kept usable. -/
theorem c1_counterexample_set_reject_teardown :
    (QHalRemoteComponent.halrcmdMessageReceived compConnected
      rxSetReject).1.subReady = false ∧
    (QHalRemoteComponent.halrcmdMessageReceived compConnected
      rxSetReject).1.rpcReady = false ∧
    (QHalRemoteComponent.halrcmdMessageReceived compConnected
      rxSetReject).1.pinsByName = [] ∧
    (QHalRemoteComponent.halrcmdMessageReceived compConnected
      rxSetReject).1.connectionState = .Disconnected ∧
    (QHalRemoteComponent.halrcmdMessageReceived compConnected
      rxSetReject).1.errorString = "" ∧
    compConnected.subReady = true ∧
    compConnected.rpcReady = true ∧
    compConnected.pinsByName ≠ [] := by
  decide

/-- C1 amended: at a live connected session, a HALRCOMP_SET_REJECT
transiently emits the Error state change (with the registry unsynced at the
emission) and the concatenated notes as an error-text change, but entering
the non-None error runs cleanup, whose synchronous supervisor teardown
re-enters the composite state machine: the final state carries error kind
PinChangeError, yet its connection state has been overwritten to
Disconnected and its error text wiped to the empty string; both supervisors
end not ready with their links Down, and the pin registry is cleared. -/
theorem c1_set_reject_cascade_teardown :
    ∀ (st : QHalRemoteComponent) (rx : Container),
      rx.ctype = .MT_HALRCOMP_SET_REJECT →
      st.connectionState = .Connected →
      st.connected = true →
      st.error = .NoError →
      st.errorString = "" →
      st.subReady = true →
      st.rpcReady = true →
      st.subSocketState = .Up →
      st.rpcSocketState = .Up →
      QHalRemoteComponent.notesToErrorString rx.notes ≠ "" →
      (QHalRemoteComponent.halrcmdMessageReceived st rx).1.error =
        .PinChangeError ∧
      (QHalRemoteComponent.halrcmdMessageReceived st
        rx).1.connectionState = .Disconnected ∧
      (QHalRemoteComponent.halrcmdMessageReceived st rx).1.errorString =
        "" ∧
      (QHalRemoteComponent.halrcmdMessageReceived st rx).1.pinsByName =
        [] ∧
      (QHalRemoteComponent.halrcmdMessageReceived st rx).1.pinsByHandle =
        [] ∧
      (QHalRemoteComponent.halrcmdMessageReceived st rx).1.subReady =
        false ∧
      (QHalRemoteComponent.halrcmdMessageReceived st rx).1.rpcReady =
        false ∧
      (QHalRemoteComponent.halrcmdMessageReceived st
        rx).1.subSocketState = .Down ∧
      (QHalRemoteComponent.halrcmdMessageReceived st
        rx).1.rpcSocketState = .Down ∧
      (QHalRemoteComponent.halrcmdMessageReceived st rx).2.head? =
        some (.connectionStateChanged .Error
          (QHalRemoteComponent.unsyncPins st).pinsByName) ∧
      HSignal.errorStringChanged
          (QHalRemoteComponent.notesToErrorString rx.notes) ∈
        (QHalRemoteComponent.halrcmdMessageReceived st rx).2 := by
  intro st rx hty hcs hcn he hes hsr hrr hss hrs hnz
  have hcall : QHalRemoteComponent.halrcmdMessageReceived st rx =
      QHalRemoteComponent.updateState st .Error .PinChangeError
        (QHalRemoteComponent.notesToErrorString rx.notes) := by
    simp [QHalRemoteComponent.halrcmdMessageReceived, hty]
  rw [hcall]
  have htd := updateState_teardown st .Error .PinChangeError
    (QHalRemoteComponent.notesToErrorString rx.notes)
    (by rw [he]; decide) (by decide)
  have hlive := updateError_live (QHalRemoteComponent.statePhase st .Error).1
    (QHalRemoteComponent.notesToErrorString rx.notes)
    (by rw [statePhase_error, he]) (by rw [statePhase_errorString, hes])
    hnz (by rw [statePhase_subReady, hsr]) (by rw [statePhase_rpcReady, hrr])
    (by rw [statePhase_subSocketState, hss])
    (by rw [statePhase_rpcSocketState, hrs]) (statePhase_connectionState _ _)
    (statePhase_connected_out st .Error hcs (by decide))
  have hev := statePhase_events_out st .Error hcs (by decide) hcn
  refine ⟨updateState_error _ _ _ _, ?_, ?_, htd.1, htd.2.1, htd.2.2.1,
    htd.2.2.2, ?_, ?_, ?_, ?_⟩
  · unfold QHalRemoteComponent.updateState
    dsimp only
    exact hlive.1
  · unfold QHalRemoteComponent.updateState
    dsimp only
    exact hlive.2.1
  · unfold QHalRemoteComponent.updateState
    dsimp only
    exact hlive.2.2.1
  · unfold QHalRemoteComponent.updateState
    dsimp only
    exact hlive.2.2.2.1
  · unfold QHalRemoteComponent.updateState
    dsimp only
    rw [hev]
    simp
  · unfold QHalRemoteComponent.updateState
    dsimp only
    simp only [List.mem_append]
    exact Or.inr hlive.2.2.2.2

/-- Witness for C1 amended at the connected component and the concrete
reject message. -/
theorem c1_set_reject_cascade_teardown_witness :
    (QHalRemoteComponent.halrcmdMessageReceived compConnected
      rxSetReject).1.error = .PinChangeError ∧
    (QHalRemoteComponent.halrcmdMessageReceived compConnected
      rxSetReject).1.connectionState = .Disconnected ∧
    (QHalRemoteComponent.halrcmdMessageReceived compConnected
      rxSetReject).1.errorString = "" ∧
    (QHalRemoteComponent.halrcmdMessageReceived compConnected
      rxSetReject).1.pinsByName = [] ∧
    (QHalRemoteComponent.halrcmdMessageReceived compConnected
      rxSetReject).1.pinsByHandle = [] ∧
    (QHalRemoteComponent.halrcmdMessageReceived compConnected
      rxSetReject).1.subReady = false ∧
    (QHalRemoteComponent.halrcmdMessageReceived compConnected
      rxSetReject).1.rpcReady = false ∧
    (QHalRemoteComponent.halrcmdMessageReceived compConnected
      rxSetReject).1.subSocketState = .Down ∧
    (QHalRemoteComponent.halrcmdMessageReceived compConnected
      rxSetReject).1.rpcSocketState = .Down ∧
    (QHalRemoteComponent.halrcmdMessageReceived compConnected
      rxSetReject).2.head? =
      some (.connectionStateChanged .Error
        (QHalRemoteComponent.unsyncPins compConnected).pinsByName) ∧
    HSignal.errorStringChanged
        (QHalRemoteComponent.notesToErrorString rxSetReject.notes) ∈
      (QHalRemoteComponent.halrcmdMessageReceived compConnected
        rxSetReject).2 :=
  c1_set_reject_cascade_teardown compConnected rxSetReject (by decide)
    (by decide) (by decide) (by decide) (by decide) (by decide) (by decide)
    (by decide) (by decide) (by decide)

/-- C7: evaluating the full-update handler on a message whose pin name does
not resolve locally after the first-dot split: the source fetches the NULL
map entry and calls setHandle on it, a null-pointer dereference, instead of
ignoring the pin and continuing. -/
theorem c7_full_update_null_deref :
    QHalRemoteComponent.halrcompMessageReceived compKnownOnly
      rxUnknownFullUpdate = .error "null QHalPin dereference" := by
  rfl

/-- C6: evaluating the timeout-recovery cycle (state Timeout, an inbound
message arrives): the source emits the socket subscribe primitive twice, for
the old subscription during so-called unsubscribe and for the configured
topic during resubscribe, and never invokes the unsubscribe primitive. -/
theorem c6_recovery_never_unsubscribes :
    (MachinetalkSubscriber.socketMessageReceived subTimeout "comp"
        rxIncremental).2 =
      [.socketStateChanged .Down, .wireSubscribed {"comp"},
        .socketStateChanged .Trying, .wireSubscribed {"comp"}] ∧
    (MachinetalkSubscriber.socketMessageReceived subTimeout "comp"
        rxIncremental).2.countP
      (fun sig => match sig with
        | SubSignal.wireUnsubscribed _ => true
        | _ => false) = 0 := by
  decide

/-- C8 counterexample: starting and then stopping the subscriber leaves it
in Down with the tracked subscription set still holding the configured
topic, against the claim that the set is empty whenever Down. -/
theorem c8_counterexample_stop_keeps_subscriptions :
    (MachinetalkSubscriber.run (MachinetalkSubscriber.mkSubscriber
      {"halrcomp"}) [.setReadyTrue true "", .setReadyFalse]).socketState =
      .Down ∧
    (MachinetalkSubscriber.run (MachinetalkSubscriber.mkSubscriber
      {"halrcomp"}) [.setReadyTrue true "", .setReadyFalse]).subscriptions ≠
      ∅ := by
  decide

/-- Field equations of the subscriber updateState. -/
@[simp]
theorem sub_updateState_socketState (st : MachinetalkSubscriber)
    (s : SocketState) (es : String) :
    (MachinetalkSubscriber.updateState st s es).1.socketState = s := by
  by_cases h1 : s = st.socketState <;>
    by_cases h2 : es = st.errorString <;>
      simp [MachinetalkSubscriber.updateState, h1, h2]

@[simp]
theorem sub_updateState_topics (st : MachinetalkSubscriber)
    (s : SocketState) (es : String) :
    (MachinetalkSubscriber.updateState st s es).1.topics = st.topics := by
  by_cases h1 : s = st.socketState <;>
    by_cases h2 : es = st.errorString <;>
      simp [MachinetalkSubscriber.updateState, h1, h2]

@[simp]
theorem sub_updateState_subscriptions (st : MachinetalkSubscriber)
    (s : SocketState) (es : String) :
    (MachinetalkSubscriber.updateState st s es).1.subscriptions =
      st.subscriptions := by
  by_cases h1 : s = st.socketState <;>
    by_cases h2 : es = st.errorString <;>
      simp [MachinetalkSubscriber.updateState, h1, h2]

@[simp]
theorem sub_updateState_socket (st : MachinetalkSubscriber)
    (s : SocketState) (es : String) :
    (MachinetalkSubscriber.updateState st s es).1.socket = st.socket := by
  by_cases h1 : s = st.socketState <;>
    by_cases h2 : es = st.errorString <;>
      simp [MachinetalkSubscriber.updateState, h1, h2]

@[simp]
theorem sub_updateState_ready (st : MachinetalkSubscriber)
    (s : SocketState) (es : String) :
    (MachinetalkSubscriber.updateState st s es).1.ready = st.ready := by
  by_cases h1 : s = st.socketState <;>
    by_cases h2 : es = st.errorString <;>
      simp [MachinetalkSubscriber.updateState, h1, h2]

@[simp]
theorem sub_updateState_heartbeatPeriod (st : MachinetalkSubscriber)
    (s : SocketState) (es : String) :
    (MachinetalkSubscriber.updateState st s es).1.heartbeatPeriod =
      st.heartbeatPeriod := by
  by_cases h1 : s = st.socketState <;>
    by_cases h2 : es = st.errorString <;>
      simp [MachinetalkSubscriber.updateState, h1, h2]

@[simp]
theorem sub_updateState_timerActive (st : MachinetalkSubscriber)
    (s : SocketState) (es : String) :
    (MachinetalkSubscriber.updateState st s es).1.timerActive =
      st.timerActive := by
  by_cases h1 : s = st.socketState <;>
    by_cases h2 : es = st.errorString <;>
      simp [MachinetalkSubscriber.updateState, h1, h2]

/-- Field equations of subscribe. -/
@[simp]
theorem sub_subscribe_socketState (st : MachinetalkSubscriber) :
    (MachinetalkSubscriber.subscribe st).1.socketState = .Trying := by
  simp [MachinetalkSubscriber.subscribe]

@[simp]
theorem sub_subscribe_subscriptions (st : MachinetalkSubscriber) :
    (MachinetalkSubscriber.subscribe st).1.subscriptions =
      st.subscriptions ∪ st.topics := by
  simp [MachinetalkSubscriber.subscribe]

@[simp]
theorem sub_subscribe_topics (st : MachinetalkSubscriber) :
    (MachinetalkSubscriber.subscribe st).1.topics = st.topics := by
  simp [MachinetalkSubscriber.subscribe]

@[simp]
theorem sub_subscribe_socket (st : MachinetalkSubscriber) :
    (MachinetalkSubscriber.subscribe st).1.socket = st.socket := by
  simp [MachinetalkSubscriber.subscribe]

/-- Field equations of unsubscribe. -/
@[simp]
theorem sub_unsubscribe_socketState (st : MachinetalkSubscriber) :
    (MachinetalkSubscriber.unsubscribe st).1.socketState = .Down := by
  simp [MachinetalkSubscriber.unsubscribe]

@[simp]
theorem sub_unsubscribe_subscriptions (st : MachinetalkSubscriber) :
    (MachinetalkSubscriber.unsubscribe st).1.subscriptions = ∅ := by
  simp [MachinetalkSubscriber.unsubscribe]

@[simp]
theorem sub_unsubscribe_topics (st : MachinetalkSubscriber) :
    (MachinetalkSubscriber.unsubscribe st).1.topics = st.topics := by
  simp [MachinetalkSubscriber.unsubscribe]

@[simp]
theorem sub_unsubscribe_socket (st : MachinetalkSubscriber) :
    (MachinetalkSubscriber.unsubscribe st).1.socket = st.socket := by
  simp [MachinetalkSubscriber.unsubscribe]

/-- Field equations of stop. -/
@[simp]
theorem sub_stop_socketState (st : MachinetalkSubscriber) :
    (MachinetalkSubscriber.stop st).1.socketState = .Down := by
  simp [MachinetalkSubscriber.stop, MachinetalkSubscriber.stopHeartbeat]

@[simp]
theorem sub_stop_subscriptions (st : MachinetalkSubscriber) :
    (MachinetalkSubscriber.stop st).1.subscriptions = st.subscriptions := by
  simp [MachinetalkSubscriber.stop, MachinetalkSubscriber.stopHeartbeat]

@[simp]
theorem sub_stop_topics (st : MachinetalkSubscriber) :
    (MachinetalkSubscriber.stop st).1.topics = st.topics := by
  simp [MachinetalkSubscriber.stop, MachinetalkSubscriber.stopHeartbeat]

@[simp]
theorem sub_stop_socket (st : MachinetalkSubscriber) :
    (MachinetalkSubscriber.stop st).1.socket = false := by
  simp [MachinetalkSubscriber.stop, MachinetalkSubscriber.stopHeartbeat]

/-- Field equations of the subscriber heartbeat tick. -/
@[simp]
theorem sub_tick_socketState (st : MachinetalkSubscriber) :
    (MachinetalkSubscriber.heartbeatTimerTick st).1.socketState =
      .Timeout := by
  simp [MachinetalkSubscriber.heartbeatTimerTick]

@[simp]
theorem sub_tick_subscriptions (st : MachinetalkSubscriber) :
    (MachinetalkSubscriber.heartbeatTimerTick st).1.subscriptions =
      st.subscriptions := by
  simp [MachinetalkSubscriber.heartbeatTimerTick]

@[simp]
theorem sub_tick_topics (st : MachinetalkSubscriber) :
    (MachinetalkSubscriber.heartbeatTimerTick st).1.topics = st.topics := by
  simp [MachinetalkSubscriber.heartbeatTimerTick]

@[simp]
theorem sub_tick_socket (st : MachinetalkSubscriber) :
    (MachinetalkSubscriber.heartbeatTimerTick st).1.socket = st.socket := by
  simp [MachinetalkSubscriber.heartbeatTimerTick]

/-- One stimulus step preserves the subscription-set invariant. -/
theorem subInv_step (t : Finset String) (st : MachinetalkSubscriber)
    (e : MachinetalkSubscriber.Event) (h : SubInv t st) :
    SubInv t (MachinetalkSubscriber.step st e).1 := by
  obtain ⟨ht, hsub, hsock, hup⟩ := h
  cases e with
  | setReadyTrue ok err =>
      by_cases hr : st.ready
      · simpa [MachinetalkSubscriber.step, hr] using ⟨ht, hsub, hsock, hup⟩
      · by_cases hok : ok
        · refine ⟨?_, ?_, ?_, ?_⟩ <;>
            simp only [MachinetalkSubscriber.step,
              MachinetalkSubscriber.start, hr, hok, if_false, if_true,
              Bool.false_eq_true, sub_subscribe_socketState,
              sub_subscribe_subscriptions, sub_subscribe_topics,
              sub_subscribe_socket] <;>
          rcases hsub with hsv | hsv <;>
            simp [ht, hsv]
        · refine ⟨?_, ?_, ?_, ?_⟩ <;>
            simp only [MachinetalkSubscriber.step,
              MachinetalkSubscriber.start, hr, hok, if_false, if_true,
              Bool.false_eq_true, sub_updateState_socketState,
              sub_updateState_subscriptions, sub_updateState_topics,
              sub_updateState_socket, sub_updateState_ready]
          · exact ht
          · exact hsub
          · exact hsock
          · simp
  | setReadyFalse =>
      by_cases hr : st.ready
      · refine ⟨?_, ?_, ?_, ?_⟩ <;>
          simp only [MachinetalkSubscriber.step, hr, if_true,
            sub_stop_socketState, sub_stop_subscriptions, sub_stop_topics,
            sub_stop_socket]
        · exact ht
        · exact hsub
        · simp
        · simp
      · simpa [MachinetalkSubscriber.step, hr] using ⟨ht, hsub, hsock, hup⟩
  | timerTick =>
      by_cases ha : st.timerActive
      · refine ⟨?_, ?_, ?_, ?_⟩ <;>
          simp only [MachinetalkSubscriber.step, ha, if_true,
            sub_tick_socketState, sub_tick_subscriptions, sub_tick_topics,
            sub_tick_socket]
        · exact ht
        · exact hsub
        · exact hsock
        · simp
      · simpa [MachinetalkSubscriber.step, ha] using ⟨ht, hsub, hsock, hup⟩
  | message topic rx =>
      by_cases hs : st.socket
      · have hst : st.subscriptions = t := hsock hs
        by_cases hp : rx.ctype = .MT_PING
        · have hf : rx.ctype ≠ .MT_HALRCOMP_FULL_UPDATE := by
            rw [hp]
            decide
          by_cases hu : st.socketState = .Up
          · refine ⟨?_, ?_, ?_, ?_⟩ <;>
              simp [MachinetalkSubscriber.step,
                MachinetalkSubscriber.socketMessageReceived,
                MachinetalkSubscriber.refreshHeartbeat, hs, hf, hp, hu, ht,
                hst]
          · refine ⟨?_, ?_, ?_, ?_⟩ <;>
              simp [MachinetalkSubscriber.step,
                MachinetalkSubscriber.socketMessageReceived, hs, hf, hp,
                hu, ht, hst]
        · by_cases hf : rx.ctype = .MT_HALRCOMP_FULL_UPDATE
          · cases hk : rx.pparamsKeepalive with
            | some k =>
                refine ⟨?_, ?_, ?_, ?_⟩ <;>
                  simp [MachinetalkSubscriber.step,
                    MachinetalkSubscriber.socketMessageReceived,
                    MachinetalkSubscriber.refreshHeartbeat, hs, hf, hp, hk,
                    ht, hst]
            | none =>
                refine ⟨?_, ?_, ?_, ?_⟩ <;>
                  simp [MachinetalkSubscriber.step,
                    MachinetalkSubscriber.socketMessageReceived,
                    MachinetalkSubscriber.refreshHeartbeat, hs, hf, hp, hk,
                    ht, hst]
          · by_cases hu : st.socketState = .Up
            · refine ⟨?_, ?_, ?_, ?_⟩ <;>
                simp [MachinetalkSubscriber.step,
                  MachinetalkSubscriber.socketMessageReceived,
                  MachinetalkSubscriber.refreshHeartbeat, hs, hf, hp, hu,
                  ht, hst]
            · refine ⟨?_, ?_, ?_, ?_⟩ <;>
                simp [MachinetalkSubscriber.step,
                  MachinetalkSubscriber.socketMessageReceived, hs, hf, hp,
                  hu, ht, hst]
      · simpa [MachinetalkSubscriber.step, hs] using ⟨ht, hsub, hsock, hup⟩

/-- Running any stimulus list preserves the subscription-set invariant. -/
theorem subInv_run (t : Finset String) (es : List MachinetalkSubscriber.Event)
    (st : MachinetalkSubscriber) (h : SubInv t st) :
    SubInv t (MachinetalkSubscriber.run st es) := by
  induction es generalizing st with
  | nil => simpa [MachinetalkSubscriber.run] using h
  | cons e es ih =>
      have hstep := subInv_step t st e h
      simpa [MachinetalkSubscriber.run, List.foldl_cons] using
        ih (MachinetalkSubscriber.step st e).1 hstep

/-- C8 amended: at every state of the subscriber reachable from a fresh
configuration, the tracked subscription set equals the configured topics
whenever the link is Up or Trying, and it is always either the configured
set or empty; the set is emptied by the unsubscribe step of a
timeout-recovery cycle, while stop leaves it untouched (it is not cleared
on stop/setReady(false)). -/
theorem c8_subscriptions_invariant :
    ∀ (topics : Finset String) (es : List MachinetalkSubscriber.Event),
      (((MachinetalkSubscriber.run (MachinetalkSubscriber.mkSubscriber
            topics) es).socketState = .Up ∨
        (MachinetalkSubscriber.run (MachinetalkSubscriber.mkSubscriber
            topics) es).socketState = .Trying) →
        (MachinetalkSubscriber.run (MachinetalkSubscriber.mkSubscriber
            topics) es).subscriptions = topics) ∧
      ((MachinetalkSubscriber.run (MachinetalkSubscriber.mkSubscriber
            topics) es).subscriptions = topics ∨
        (MachinetalkSubscriber.run (MachinetalkSubscriber.mkSubscriber
            topics) es).subscriptions = ∅) ∧
      (∀ st : MachinetalkSubscriber,
        (MachinetalkSubscriber.stop st).1.subscriptions =
          st.subscriptions) ∧
      (∀ st : MachinetalkSubscriber,
        (MachinetalkSubscriber.unsubscribe st).1.subscriptions = ∅) := by
  intro topics es
  have hinv : SubInv topics
      (MachinetalkSubscriber.run (MachinetalkSubscriber.mkSubscriber
        topics) es) := by
    refine subInv_run topics es _ ⟨rfl, Or.inr rfl, ?_, ?_⟩
    · intro hcontra
      simp [MachinetalkSubscriber.mkSubscriber] at hcontra
    · intro hcontra
      simp [MachinetalkSubscriber.mkSubscriber] at hcontra
  obtain ⟨ht, hsub, hsock, hup⟩ := hinv
  exact ⟨fun hs => hsock (hup hs), hsub,
    fun st => sub_stop_subscriptions st,
    fun st => sub_unsubscribe_subscriptions st⟩

/-- Witness for C8 amended: after a successful start the subscriber is
Trying and its tracked subscription set equals the configured topic set. -/
theorem c8_subscriptions_invariant_witness :
    (MachinetalkSubscriber.run (MachinetalkSubscriber.mkSubscriber
      {"halrcomp"}) [.setReadyTrue true ""]).subscriptions =
      ({"halrcomp"} : Finset String) :=
  (c8_subscriptions_invariant {"halrcomp"} [.setReadyTrue true ""]).1
    (Or.inr (by decide))

end QtQuickVcp
